import Mathlib

/-!
Verification development for the eSTOL hybrid-electric aircraft sizing code.

The Python source is embedded shallowly over `ℚ`: every float value is
modelled as a rational, float arithmetic as exact field arithmetic
(division is `ℚ`-division, hence total), and strings as `String`.
The segment-physics computations (atmosphere lookups, square roots,
non-integer powers, trigonometry) are irrational and are therefore kept
as explicit oracle parameters (`SegmentPhysics`, wing/fuselage weight
functions, constraint-analysis function); every theorem below is
universally quantified over them, so it holds for whatever values the
real physics produces.  All other code paths — the powertrain power
splits and component sizing, the mission-simulation fold, the inline
battery-sizing block and the fixed-point sizing loop of
`size_aircraft` — are translated line by line from the source.
-/

namespace Estol

/-- `TechnologySpec` (powertrain.py lines 6-23), all twelve numeric fields. -/
structure TechSpec where
  GT_specific_power_kW_kg : ℚ
  GT_efficiency : ℚ
  GT_BSFC_kg_kWh : ℚ
  EM_specific_power_kW_kg : ℚ
  EM_efficiency : ℚ
  GEN_specific_power_kW_kg : ℚ
  GEN_efficiency : ℚ
  battery_specific_energy_Wh_kg : ℚ
  battery_specific_power_kW_kg : ℚ
  battery_SOC_margin : ℚ
  battery_DOD : ℚ
  prop_efficiency : ℚ
deriving DecidableEq

/-- The dict returned by every `get_power_split` (the four keys shared by
all architectures; the extra diagnostic keys of the multi-engine variant
are not read anywhere in the sizing loop or mission simulator). -/
structure PowerSplit where
  P_GT_kW : ℚ
  P_EM_kW : ℚ
  fuel_rate_kg_s : ℚ
  battery_power_W : ℚ
deriving DecidableEq

/-- `MotorSet` (dual_motor_powertrain.py lines 14-36). -/
structure MotorSet where
  name : String
  num_motors : ℚ
  power_per_motor_kW : ℚ
  weight_per_motor_lb : ℚ
  efficiency : ℚ
  active_phases : List String
  can_fold : Bool
  folded_drag_cd : ℚ
deriving DecidableEq

def MotorSet.total_power_kW (m : MotorSet) : ℚ := m.num_motors * m.power_per_motor_kW

def MotorSet.total_weight_lb (m : MotorSet) : ℚ := m.num_motors * m.weight_per_motor_lb

/-- The `dep_system` configuration subtree read by `DualMotorDEPPowertrain`. -/
structure DepConfig where
  hl_number_of_motors : ℚ
  hl_power_per_motor_kW : ℚ
  hl_weight_per_motor_lb : ℚ
  hl_efficiency : ℚ
  hl_active_phases : List String
  hl_can_fold : Bool
  hl_folded_drag_increment : ℚ
  cruise_number_of_motors : ℚ
  cruise_specific_power_kW_kg : ℚ
  cruise_efficiency : ℚ
  cruise_architecture : String
  power_architecture_type : String
  wiring_weight_factor : ℚ
  controller_weight_per_kW : ℚ
deriving DecidableEq

/-- The high-lift `MotorSet` built in `DualMotorDEPPowertrain.__init__`. -/
def highliftMotorSet (cfg : DepConfig) : MotorSet :=
  { name := "High-Lift Motors"
    num_motors := cfg.hl_number_of_motors
    power_per_motor_kW := cfg.hl_power_per_motor_kW
    weight_per_motor_lb := cfg.hl_weight_per_motor_lb
    efficiency := cfg.hl_efficiency
    active_phases := cfg.hl_active_phases
    can_fold := cfg.hl_can_fold
    folded_drag_cd := cfg.hl_folded_drag_increment }

/-- The mutable numeric attributes shared by all `PowertrainBase`
subclasses (powertrain.py lines 44-56); zero-initialised in `__init__`. -/
structure BaseSized where
  m_GT_lb : ℚ := 0
  m_EM_lb : ℚ := 0
  m_GEN_lb : ℚ := 0
  m_battery_lb : ℚ := 0
  m_fuel_lb : ℚ := 0
  P_GT_kW : ℚ := 0
  P_EM_kW : ℚ := 0
  P_GEN_kW : ℚ := 0
deriving DecidableEq

/-- Mutable attributes of `DualMotorDEPPowertrain`
(dual_motor_powertrain.py lines 86-103). -/
structure DepSized where
  cruise_motors : Option MotorSet := none
  m_battery_lb : ℚ := 0
  m_highlift_lb : ℚ
  m_cruise_motors_lb : ℚ := 0
  m_wiring_lb : ℚ := 0
  m_controllers_lb : ℚ := 0
  P_GT_kW : ℚ := 0
  P_EM_kW : ℚ := 0
  P_GEN_kW : ℚ := 0
  m_GT_lb : ℚ := 0
  m_EM_lb : ℚ := 0
  m_GEN_lb : ℚ := 0
deriving DecidableEq

/-- Per-engine attributes of `MultiEnginePowertrain` (powertrain.py lines 233-238). -/
structure PerEngineSized where
  P_GT_per_engine_kW : ℚ := 0
  P_EM_per_engine_kW : ℚ := 0
  m_GT_per_engine_lb : ℚ := 0
  m_EM_per_engine_lb : ℚ := 0
deriving DecidableEq

/-- A powertrain object: the architecture tag chosen by `set_powertrain`
together with its technology spec, static configuration and mutable
sized state. -/
inductive Powertrain where
  | conventional (tech : TechSpec) (s : BaseSized)
  | parallelHybrid (tech : TechSpec) (s : BaseSized)
  | serialHybrid (tech : TechSpec) (s : BaseSized)
  | fullyElectric (tech : TechSpec) (s : BaseSized)
  | multiEngine (tech : TechSpec) (num_engines : ℚ) (s : BaseSized) (pe : PerEngineSized)
  | dualMotorDEP (tech : TechSpec) (cfg : DepConfig) (s : DepSized)
deriving DecidableEq

/-- A freshly constructed `DualMotorDEPPowertrain`: `cruise_motors` is
`None`, the high-lift motor mass comes from the config, everything else
is zero (dual_motor_powertrain.py lines 47-103). -/
def Powertrain.mkDualMotorDEP (tech : TechSpec) (cfg : DepConfig) : Powertrain :=
  .dualMotorDEP tech cfg { m_highlift_lb := (highliftMotorSet cfg).total_weight_lb }

/-- `size_components` of every architecture (powertrain.py lines 73-77,
96-101, 132-155, 191-195, 240-272; dual_motor_powertrain.py lines
105-203).  Fields not assigned by the Python method are carried over
unchanged from the previous state, exactly as attribute mutation does. -/
def Powertrain.size_components : Powertrain → ℚ → ℚ → Powertrain
  | .conventional tech s, P, _ =>
      .conventional tech
        { s with
          P_GT_kW := P
          m_GT_lb := P / tech.GT_specific_power_kW_kg * 2.20462
          m_EM_lb := 0
          m_GEN_lb := 0 }
  | .parallelHybrid tech s, P, Hp =>
      .parallelHybrid tech
        { s with
          P_EM_kW := P * Hp
          P_GT_kW := P * (1 - Hp)
          m_EM_lb := P * Hp / tech.EM_specific_power_kW_kg * 2.20462
          m_GT_lb := P * (1 - Hp) / tech.GT_specific_power_kW_kg * 2.20462
          m_GEN_lb := 0 }
  | .serialHybrid tech s, P, Hp =>
      .serialHybrid tech
        { s with
          P_EM_kW := P * (1 + Hp)
          P_GEN_kW := P / tech.EM_efficiency
          P_GT_kW := P / tech.EM_efficiency / tech.GEN_efficiency
          m_EM_lb := P * (1 + Hp) / tech.EM_specific_power_kW_kg * 2.20462
          m_GEN_lb := P / tech.EM_efficiency / tech.GEN_specific_power_kW_kg * 2.20462
          m_GT_lb := P / tech.EM_efficiency / tech.GEN_efficiency / tech.GT_specific_power_kW_kg * 2.20462 }
  | .fullyElectric tech s, P, _ =>
      .fullyElectric tech
        { s with
          P_EM_kW := P
          m_EM_lb := P / tech.EM_specific_power_kW_kg * 2.20462
          m_GT_lb := 0
          m_GEN_lb := 0 }
  | .multiEngine tech n s pe, P, Hp =>
      .multiEngine tech n
        { s with
          P_GT_kW := P / n * (1 - Hp) * n
          P_EM_kW := P / n * Hp * n
          m_GT_lb := P / n * (1 - Hp) / tech.GT_specific_power_kW_kg * 2.20462 * n
          m_EM_lb := P / n * Hp / tech.EM_specific_power_kW_kg * 2.20462 * n
          m_GEN_lb := 0 }
        { pe with
          P_GT_per_engine_kW := P / n * (1 - Hp)
          P_EM_per_engine_kW := P / n * Hp
          m_GT_per_engine_lb := P / n * (1 - Hp) / tech.GT_specific_power_kW_kg * 2.20462
          m_EM_per_engine_lb := P / n * Hp / tech.EM_specific_power_kW_kg * 2.20462 }
  | .dualMotorDEP tech cfg s, P, Hp =>
      let num := cfg.cruise_number_of_motors
      let power_per_motor := P / num
      if cfg.cruise_architecture = "parallel_hybrid" then
        let m_EM_per_motor_lb := power_per_motor * Hp / cfg.cruise_specific_power_kW_kg * 2.20462
        let m_GT_per_motor_lb := power_per_motor * (1 - Hp) / tech.GT_specific_power_kW_kg * 2.20462
        let ms : MotorSet :=
          { name := "Cruise Motors (Parallel Hybrid)"
            num_motors := num
            power_per_motor_kW := power_per_motor
            weight_per_motor_lb := m_GT_per_motor_lb + m_EM_per_motor_lb
            efficiency := cfg.cruise_efficiency
            active_phases := ["all"]
            can_fold := false
            folded_drag_cd := 0.001 }
        let total_power_kW := P + (highliftMotorSet cfg).total_power_kW
        .dualMotorDEP tech cfg
          { s with
            cruise_motors := some ms
            P_GT_kW := power_per_motor * (1 - Hp) * num
            P_EM_kW := power_per_motor * Hp * num
            m_GT_lb := m_GT_per_motor_lb * num
            m_EM_lb := m_EM_per_motor_lb * num
            m_cruise_motors_lb := ms.total_weight_lb
            m_wiring_lb := total_power_kW * cfg.wiring_weight_factor
            m_controllers_lb := total_power_kW * cfg.controller_weight_per_kW }
      else
        let weight_per_motor_lb := power_per_motor / cfg.cruise_specific_power_kW_kg * 2.20462
        let ms : MotorSet :=
          { name := "Cruise Motors (Pure Electric)"
            num_motors := num
            power_per_motor_kW := power_per_motor
            weight_per_motor_lb := weight_per_motor_lb
            efficiency := cfg.cruise_efficiency
            active_phases := ["all"]
            can_fold := false
            folded_drag_cd := 0.001 }
        let total_power_kW := P + (highliftMotorSet cfg).total_power_kW
        .dualMotorDEP tech cfg
          { s with
            cruise_motors := some ms
            m_cruise_motors_lb := ms.total_weight_lb
            P_GT_kW := 0
            P_EM_kW := ms.total_power_kW
            m_GT_lb := 0
            m_EM_lb := ms.total_weight_lb
            m_wiring_lb := total_power_kW * cfg.wiring_weight_factor
            m_controllers_lb := total_power_kW * cfg.controller_weight_per_kW }

/-- `MultiEnginePowertrain.get_power_split` (powertrain.py lines 274-326)
with its `oei_mode` argument made explicit. -/
def multiEngineGetPowerSplit (tech : TechSpec) (num_engines P_required_kW Hp : ℚ)
    (oei_mode : Bool) : PowerSplit :=
  let num_operating : ℚ := if oei_mode then 1 else num_engines
  let P_per_engine := if oei_mode then P_required_kW else P_required_kW / num_engines
  let P_GT_total := P_per_engine * (1 - Hp) * num_operating
  let P_EM_total := P_per_engine * Hp * num_operating
  { P_GT_kW := P_GT_total
    P_EM_kW := P_EM_total
    fuel_rate_kg_s := P_GT_total * tech.GT_BSFC_kg_kWh / 3600
    battery_power_W := P_EM_total * 1000 / tech.EM_efficiency }

/-- `get_power_split` of every architecture (powertrain.py lines 79-86,
103-113, 157-184, 197-204, 274-326; dual_motor_powertrain.py lines
205-273).  The mission simulator calls it with two arguments, so the
multi-engine `oei_mode` defaults to all-engines-operating. -/
def Powertrain.get_power_split : Powertrain → ℚ → ℚ → PowerSplit
  | .conventional tech _, P, _ =>
      { P_GT_kW := P
        P_EM_kW := 0
        fuel_rate_kg_s := P * tech.GT_BSFC_kg_kWh / 3600
        battery_power_W := 0 }
  | .parallelHybrid tech _, P, Hp =>
      { P_GT_kW := P * (1 - Hp)
        P_EM_kW := P * Hp
        fuel_rate_kg_s := P * (1 - Hp) * tech.GT_BSFC_kg_kWh / 3600
        battery_power_W := P * Hp * 1000 / tech.EM_efficiency }
  | .serialHybrid tech s, P, _ =>
      let P_electric_kW := P / tech.EM_efficiency
      let P_generator_kW := min P_electric_kW s.P_GEN_kW
      let P_battery_kW := max 0 (P_electric_kW - P_generator_kW)
      let P_GT_kW := P_generator_kW / tech.GEN_efficiency
      { P_GT_kW := P_GT_kW
        P_EM_kW := P
        fuel_rate_kg_s := P_GT_kW * tech.GT_BSFC_kg_kWh / 3600
        battery_power_W := P_battery_kW * 1000 }
  | .fullyElectric tech _, P, _ =>
      { P_GT_kW := 0
        P_EM_kW := P
        fuel_rate_kg_s := 0
        battery_power_W := P * 1000 / tech.EM_efficiency }
  | .multiEngine tech n _ _, P, Hp => multiEngineGetPowerSplit tech n P Hp false
  | .dualMotorDEP tech cfg s, P, Hp =>
      match s.cruise_motors with
      | none =>
          { P_GT_kW := 0, P_EM_kW := 0, fuel_rate_kg_s := 0, battery_power_W := 0 }
      | some ms =>
          if cfg.cruise_architecture = "parallel_hybrid" then
            { P_GT_kW := P * (1 - Hp)
              P_EM_kW := P * Hp
              fuel_rate_kg_s := P * (1 - Hp) * tech.GT_BSFC_kg_kWh / 3600
              battery_power_W := P * Hp / ms.efficiency * 1000 }
          else
            { P_GT_kW := 0
              P_EM_kW := P
              fuel_rate_kg_s := 0
              battery_power_W := P / ms.efficiency * 1000 }

/-- `get_total_propulsion_weight` (powertrain.py lines 64-66;
dual_motor_powertrain.py lines 289-295). -/
def Powertrain.get_total_propulsion_weight : Powertrain → ℚ
  | .conventional _ s => s.m_GT_lb + s.m_EM_lb + s.m_GEN_lb
  | .parallelHybrid _ s => s.m_GT_lb + s.m_EM_lb + s.m_GEN_lb
  | .serialHybrid _ s => s.m_GT_lb + s.m_EM_lb + s.m_GEN_lb
  | .fullyElectric _ s => s.m_GT_lb + s.m_EM_lb + s.m_GEN_lb
  | .multiEngine _ _ s _ => s.m_GT_lb + s.m_EM_lb + s.m_GEN_lb
  | .dualMotorDEP _ _ s =>
      s.m_battery_lb + s.m_highlift_lb + s.m_cruise_motors_lb + s.m_wiring_lb + s.m_controllers_lb

/-- The `P_GEN_kW` attribute of a powertrain object. -/
def Powertrain.P_GEN_kW : Powertrain → ℚ
  | .conventional _ s => s.P_GEN_kW
  | .parallelHybrid _ s => s.P_GEN_kW
  | .serialHybrid _ s => s.P_GEN_kW
  | .fullyElectric _ s => s.P_GEN_kW
  | .multiEngine _ _ s _ => s.P_GEN_kW
  | .dualMotorDEP _ _ s => s.P_GEN_kW

/-- The generator operating point inside
`SerialHybridPowertrain.get_power_split` (powertrain.py line 168):
the generator throttles to demand but is capped at its rating. -/
def serialGeneratorLoad (tech : TechSpec) (P_GEN_rating_kW P_required_kW : ℚ) : ℚ :=
  min (P_required_kW / tech.EM_efficiency) P_GEN_rating_kW

/-- The attributes of `HybridElectricAircraft` consumed by the embedded
code paths (aircraft.py lines 26-76).  `initial_TOGW_guess_lb` is the
`weight_iteration.initial_TOGW_guess_lb` config leaf stored into
`self.TOGW_lb` by `__init__`. -/
structure AircraftParams where
  W_payload_lb : ℚ
  range_nm : ℚ
  cruise_speed_kts : ℚ
  cruise_alt_ft : ℚ
  dep_enabled : Bool
  dep_lift_aug_max : ℚ
  dep_blown_span_fraction : ℚ
  dep_num_motors : ℚ
  dep_motor_power_kW : ℚ
  tech : TechSpec
  Hp_design : ℚ
  initial_TOGW_guess_lb : ℚ
deriving DecidableEq

/-- `get_lift_augmentation_factor` (aircraft.py lines 128-155). -/
def get_lift_augmentation_factor (ac : AircraftParams) (blown_lift_active : Bool) : ℚ :=
  if !blown_lift_active || !ac.dep_enabled then 1.0
  else 1.0 + (ac.dep_lift_aug_max - 1.0) * ac.dep_blown_span_fraction

/-- `get_highlift_motor_power` (mission.py lines 28-45). -/
def get_highlift_motor_power (ac : AircraftParams) (blown_lift_active : Bool) : ℚ :=
  if !blown_lift_active || !ac.dep_enabled then 0
  else ac.dep_num_motors * ac.dep_motor_power_kW

/-- `MissionSegment` (mission.py lines 12-25), its input fields. -/
structure MissionSegment where
  name : String
  altitude_start_ft : ℚ
  altitude_end_ft : ℚ
  Hp : ℚ
  blown_lift_active : Bool
deriving DecidableEq

/-- Per-segment simulation outputs (the fields the simulator stores back
onto the segment object, mission.py lines 414-417).  `W_start_lb` records
the running `W_current_lb` handed to the segment routine, made explicit
here so theorems can speak about it. -/
structure SegOut where
  name : String
  time_sec : ℚ
  fuel_lb : ℚ
  battery_Wh : ℚ
  W_start_lb : ℚ
deriving DecidableEq

/-- The dict returned by `simulate_mission` (mission.py lines 424-429). -/
structure MissionResult where
  total_fuel_lb : ℚ
  total_battery_Wh : ℚ
  total_time_sec : ℚ
  segments : List SegOut
deriving DecidableEq

/-- The irrational part of one segment routine: given the powertrain
state, the segment descriptor, the current weight and the wing area it
produces the segment duration and required shaft power, i.e. everything
each `simulate_*_segment` function computes before its final
`get_power_split` / consumption-integration lines (which are embedded
concretely in `simulate_segment` below). -/
def SegmentPhysics : Type := Powertrain → MissionSegment → ℚ → ℚ → ℚ × ℚ

/-- The closing lines shared verbatim by all six segment routines
(e.g. mission.py lines 117-134 for cruise): power split at the segment's
Hp, high-lift motor draw, fuel and battery integration over the
duration. -/
def simulate_segment (ac : AircraftParams) (pt : Powertrain) (phys : SegmentPhysics)
    (seg : MissionSegment) (W_lb S_ft2 : ℚ) : ℚ × ℚ × ℚ :=
  let tp := phys pt seg W_lb S_ft2
  let power_split := pt.get_power_split tp.2 seg.Hp
  let P_highlift_W := get_highlift_motor_power ac seg.blown_lift_active * 1000
  (tp.1,
   power_split.fuel_rate_kg_s * tp.1 * 2.20462,
   power_split.battery_power_W * tp.1 / 3600 + P_highlift_W * tp.1 / 3600)

/-- The segment names recognised by the dispatch in `simulate_mission`
(mission.py lines 395-406), in the source's test order. -/
def knownSegmentName (n : String) : Bool :=
  n == "cruise" || n == "climb" || n == "descent" || n == "takeoff" ||
  n == "loiter" || n == "landing"

/-- The loop body of `simulate_mission` (mission.py lines 388-429):
dispatch on the segment name (unknown names raise `ValueError`),
subtract fuel burned from the running weight, store per-segment results
and accumulate the totals. -/
def simulate_mission_go (ac : AircraftParams) (pt : Powertrain) (phys : SegmentPhysics)
    (S_ft2 : ℚ) :
    List MissionSegment → ℚ → ℚ → ℚ → ℚ → List SegOut → Except String MissionResult
  | [], _, total_fuel, total_battery, total_time, acc =>
      .ok { total_fuel_lb := total_fuel
            total_battery_Wh := total_battery
            total_time_sec := total_time
            segments := acc.reverse }
  | seg :: rest, W, total_fuel, total_battery, total_time, acc =>
      if knownSegmentName seg.name then
        let r := simulate_segment ac pt phys seg W S_ft2
        simulate_mission_go ac pt phys S_ft2 rest (W - r.2.1)
          (total_fuel + r.2.1) (total_battery + r.2.2) (total_time + r.1)
          ({ name := seg.name, time_sec := r.1, fuel_lb := r.2.1,
             battery_Wh := r.2.2, W_start_lb := W } :: acc)
      else
        .error (String.append "Unknown segment type: " seg.name)

/-- `simulate_mission` (mission.py lines 385-429). -/
def simulate_mission (ac : AircraftParams) (pt : Powertrain) (phys : SegmentPhysics)
    (segments : List MissionSegment) (TOGW_lb S_wing_ft2 : ℚ) : Except String MissionResult :=
  simulate_mission_go ac pt phys S_wing_ft2 segments TOGW_lb 0 0 0 []

/-- `dict.get(key, default)` over an association list. -/
def lookupD {α : Type} (l : List (String × α)) (k : String) (d : α) : α :=
  (l.lookup k).getD d

/-- The default blown-lift profile of `create_mission`
(aircraft.py lines 167-176). -/
def defaultBlownLiftProfile : List (String × Bool) :=
  [("takeoff", true), ("climb", true), ("cruise", false),
   ("descent", false), ("loiter", false), ("landing", true)]

/-- `create_mission` (aircraft.py lines 157-198). -/
def create_mission (ac : AircraftParams) (hybridization_profile : List (String × ℚ))
    (blown_lift_profile : Option (List (String × Bool))) : List MissionSegment :=
  let blown := blown_lift_profile.getD defaultBlownLiftProfile
  [ { name := "takeoff", altitude_start_ft := 0, altitude_end_ft := 35,
      Hp := lookupD hybridization_profile "takeoff" 0,
      blown_lift_active := lookupD blown "takeoff" false },
    { name := "climb", altitude_start_ft := 35, altitude_end_ft := ac.cruise_alt_ft,
      Hp := lookupD hybridization_profile "climb" 0,
      blown_lift_active := lookupD blown "climb" false },
    { name := "cruise", altitude_start_ft := ac.cruise_alt_ft, altitude_end_ft := ac.cruise_alt_ft,
      Hp := lookupD hybridization_profile "cruise" 0,
      blown_lift_active := lookupD blown "cruise" false },
    { name := "descent", altitude_start_ft := ac.cruise_alt_ft, altitude_end_ft := 450,
      Hp := lookupD hybridization_profile "descent" 0,
      blown_lift_active := lookupD blown "descent" false },
    { name := "loiter", altitude_start_ft := 450, altitude_end_ft := 450,
      Hp := lookupD hybridization_profile "loiter" 0,
      blown_lift_active := lookupD blown "loiter" false },
    { name := "landing", altitude_start_ft := 450, altitude_end_ft := 0,
      Hp := lookupD hybridization_profile "landing" 0,
      blown_lift_active := lookupD blown "landing" false } ]

/-- The default hybridization profile built in `size_aircraft`
(aircraft.py lines 262-272) when none was supplied. -/
def defaultHybridizationProfile (Hp_design : ℚ) : List (String × ℚ) :=
  [("takeoff", Hp_design), ("climb", Hp_design), ("cruise", 0),
   ("descent", 0), ("loiter", 0), ("landing", Hp_design)]

/-- Outputs of the inline battery-sizing block of `size_aircraft`
(aircraft.py lines 295-343). -/
structure BatterySizing where
  W_battery_lb : ℚ
  W_battery_Wh : ℚ
  W_battery_kWh : ℚ
  max_battery_power_kW : ℚ
  max_power_segment : String
  c_rate_actual : ℚ
  c_rate_max : ℚ
  sizing_constraint : String
deriving DecidableEq

/-- The peak-power scan of aircraft.py lines 307-315: running maximum of
per-segment average battery power (Wh over hours), strict improvement,
initialised to `(0, "")`. -/
def peakScan : List SegOut → ℚ × String → ℚ × String
  | [], acc => acc
  | seg :: rest, acc =>
      if 0 < seg.time_sec then
        let seg_power_W := seg.battery_Wh / (seg.time_sec / 3600)
        if acc.1 < seg_power_W then peakScan rest (seg_power_W, seg.name)
        else peakScan rest acc
      else peakScan rest acc

/-- The battery-sizing block of `size_aircraft` (aircraft.py lines
295-343): dual energy/power-limited sizing with C-rate diagnostics when
a battery exists, all-zero outputs and the labels `"N/A"` otherwise. -/
def size_battery (tech : TechSpec) (total_battery_Wh : ℚ) (segments : List SegOut) :
    BatterySizing :=
  if 0 < tech.battery_specific_energy_Wh_kg ∧ 0 < tech.battery_DOD then
    let W_battery_Wh := total_battery_Wh / tech.battery_DOD
    let W_battery_kWh := W_battery_Wh / 1000
    let m_battery_energy_kg := W_battery_kWh / (tech.battery_specific_energy_Wh_kg / 1000)
    let pk := peakScan segments (0, "")
    let max_battery_power_kW := pk.1 / 1000
    let m_battery_power_kg :=
      if 0 < tech.battery_specific_power_kW_kg then
        max_battery_power_kW / tech.battery_specific_power_kW_kg
      else 0
    let m_battery_kg := max m_battery_energy_kg m_battery_power_kg
    let c_rate_actual := if 0 < W_battery_kWh then max_battery_power_kW / W_battery_kWh else 0
    let c_rate_max :=
      if 0 < tech.battery_specific_energy_Wh_kg then
        tech.battery_specific_power_kW_kg / (tech.battery_specific_energy_Wh_kg / 1000)
      else 0
    { W_battery_lb := m_battery_kg * 2.20462
      W_battery_Wh := W_battery_Wh
      W_battery_kWh := W_battery_kWh
      max_battery_power_kW := max_battery_power_kW
      max_power_segment := pk.2
      c_rate_actual := c_rate_actual
      c_rate_max := c_rate_max
      sizing_constraint := if m_battery_energy_kg < m_battery_power_kg then "POWER" else "energy" }
  else
    { W_battery_lb := 0
      W_battery_Wh := 0
      W_battery_kWh := 0
      max_battery_power_kW := 0
      max_power_segment := "N/A"
      c_rate_actual := 0
      c_rate_max := 0
      sizing_constraint := "N/A" }

/-- The external collaborators of the sizing loop whose bodies involve
irrational arithmetic: `perform_constraint_analysis` (constraints.py),
the wing and fuselage terms of `calculate_OEW` (aircraft.py lines
232-233, fractional powers and a square root), and the per-segment
physics. -/
structure Oracles where
  constraintAnalysis : ℚ → ℚ × ℚ
  W_wing : ℚ → ℚ → ℚ
  W_fuselage : ℚ → ℚ
  phys : SegmentPhysics

/-- `calculate_OEW` (aircraft.py lines 230-249): wing and fuselage terms
via the oracles, the linear terms and the propulsion weight concrete. -/
def calculate_OEW (O : Oracles) (pt : Powertrain) (TOGW_lb S_wing_ft2 : ℚ) : ℚ :=
  O.W_wing TOGW_lb S_wing_ft2 + O.W_fuselage TOGW_lb + 0.04 * TOGW_lb + 0.02 * TOGW_lb +
    pt.get_total_propulsion_weight + 0.2 * TOGW_lb

/-- The values computed by one iteration of the sizing loop that survive
the loop (aircraft.py lines 284-346 and 361-396). -/
structure IterResult where
  TOGW_new_lb : ℚ
  TOGW_old_lb : ℚ
  OEW_lb : ℚ
  W_fuel_lb : ℚ
  battery : BatterySizing
  S_wing_ft2 : ℚ
  total_time_sec : ℚ
  error : ℚ
deriving DecidableEq

/-- The pure part of one sizing iteration after a successful mission
simulation (aircraft.py lines 289-346). -/
def sizingStepOk (ac : AircraftParams) (O : Oracles) (pt' : Powertrain)
    (TOGW_guess_lb S_wing_ft2 : ℚ) (m : MissionResult) : IterResult :=
  let OEW_lb := calculate_OEW O pt' TOGW_guess_lb S_wing_ft2
  let W_fuel_lb := m.total_fuel_lb * 1.06
  let bs := size_battery ac.tech m.total_battery_Wh m.segments
  let TOGW_new_lb := OEW_lb + ac.W_payload_lb + W_fuel_lb + bs.W_battery_lb
  { TOGW_new_lb := TOGW_new_lb
    TOGW_old_lb := TOGW_guess_lb
    OEW_lb := OEW_lb
    W_fuel_lb := W_fuel_lb
    battery := bs
    S_wing_ft2 := S_wing_ft2
    total_time_sec := m.total_time_sec
    error := |TOGW_new_lb - TOGW_guess_lb| / TOGW_guess_lb }

/-- One iteration of the sizing loop (aircraft.py lines 284-346):
constraint analysis, wing area, component re-sizing, OEW, mission
simulation, fuel reserve, battery block, new TOGW and relative error.
`none` models a propagated exception from the mission simulator. -/
def sizingStep (ac : AircraftParams) (O : Oracles) (profile : List (String × ℚ))
    (pt : Powertrain) (TOGW_guess_lb : ℚ) : Option (IterResult × Powertrain) :=
  match simulate_mission ac
      (pt.size_components (O.constraintAnalysis TOGW_guess_lb).2 ac.Hp_design) O.phys
      (create_mission ac profile none) TOGW_guess_lb
      (TOGW_guess_lb / (O.constraintAnalysis TOGW_guess_lb).1) with
  | .error _ => none
  | .ok m =>
      some (sizingStepOk ac O
              (pt.size_components (O.constraintAnalysis TOGW_guess_lb).2 ac.Hp_design)
              TOGW_guess_lb (TOGW_guess_lb / (O.constraintAnalysis TOGW_guess_lb).1) m,
            pt.size_components (O.constraintAnalysis TOGW_guess_lb).2 ac.Hp_design)

/-- The `for iteration in range(max_iterations)` loop of `size_aircraft`
(aircraft.py lines 283-359): break when the relative error beats the
tolerance, otherwise under-relax the guess and continue; when the cap is
reached the last iterate is kept.  `none` for zero iterations models the
Python `NameError` on the never-assigned loop variables. -/
def runIters (ac : AircraftParams) (O : Oracles) (profile : List (String × ℚ))
    (tolerance : ℚ) : ℕ → Powertrain → ℚ → Option (IterResult × Powertrain)
  | 0, _, _ => none
  | n + 1, pt, TOGW_guess_lb =>
      match sizingStep ac O profile pt TOGW_guess_lb with
      | none => none
      | some rp =>
          if rp.1.error < tolerance then some rp
          else if n = 0 then some rp
          else
            runIters ac O profile tolerance n rp.2
              (0.7 * TOGW_guess_lb + 0.3 * rp.1.TOGW_new_lb)

/-- The results dict of `size_aircraft` (aircraft.py lines 361-396). -/
structure SizingResult where
  TOGW_lb : ℚ
  OEW_lb : ℚ
  W_fuel_lb : ℚ
  W_battery_lb : ℚ
  W_payload_lb : ℚ
  S_wing_ft2 : ℚ
  WS_psf : ℚ
  fuel_fraction : ℚ
  battery_fraction : ℚ
  payload_fraction : ℚ
  PREE : ℚ
  mission_time_min : ℚ
  converged : Bool
  battery_c_rate : ℚ
  battery_c_rate_max : ℚ
  battery_sizing_constraint : String
  battery_peak_power_kW : ℚ
  battery_peak_segment : String
deriving DecidableEq

/-- aircraft.py lines 361-396: the post-loop bookkeeping built from the
last iterate. -/
def finalizeResults (ac : AircraftParams) (tolerance : ℚ) (r : IterResult) : SizingResult :=
  let E_fuel_Wh := r.W_fuel_lb * 0.453592 * 43000 / 3.6
  let E_total_Wh := E_fuel_Wh + r.battery.W_battery_Wh
  { TOGW_lb := r.TOGW_new_lb
    OEW_lb := r.OEW_lb
    W_fuel_lb := r.W_fuel_lb
    W_battery_lb := r.battery.W_battery_lb
    W_payload_lb := ac.W_payload_lb
    S_wing_ft2 := r.S_wing_ft2
    WS_psf := r.TOGW_new_lb / r.S_wing_ft2
    fuel_fraction := r.W_fuel_lb / r.TOGW_new_lb
    battery_fraction := r.battery.W_battery_lb / r.TOGW_new_lb
    payload_fraction := ac.W_payload_lb / r.TOGW_new_lb
    PREE := ac.W_payload_lb * 4.44822 * (ac.range_nm * 1852) / E_total_Wh
    mission_time_min := r.total_time_sec / 60
    converged := decide (r.error < tolerance)
    battery_c_rate := r.battery.c_rate_actual
    battery_c_rate_max := r.battery.c_rate_max
    battery_sizing_constraint := r.battery.sizing_constraint
    battery_peak_power_kW := r.battery.max_battery_power_kW
    battery_peak_segment := r.battery.max_power_segment }

/-- `size_aircraft` generalised over the initial guess, for stating that
the source pins it to the literal `15000`. -/
def size_aircraft_from (ac : AircraftParams) (O : Oracles) (profile : List (String × ℚ))
    (max_iterations : ℕ) (tolerance : ℚ) (TOGW_guess0_lb : ℚ) (pt : Powertrain) :
    Option (SizingResult × Powertrain) :=
  (runIters ac O profile tolerance max_iterations pt TOGW_guess0_lb).map
    fun rp => (finalizeResults ac tolerance rp.1, rp.2)

/-- `size_aircraft` (aircraft.py lines 251-424) on an already-resolved
hybridization profile: the loop starts at the hard-coded guess
`TOGW_guess_lb = 15000` (line 281).  The final powertrain state is
returned alongside the results dict to model the mutation of
`self.powertrain`. -/
def size_aircraft (ac : AircraftParams) (O : Oracles) (profile : List (String × ℚ))
    (max_iterations : ℕ) (tolerance : ℚ) (pt : Powertrain) :
    Option (SizingResult × Powertrain) :=
  size_aircraft_from ac O profile max_iterations tolerance 15000 pt

/-! Configuration loading (config_loader.py), for the claim about
missing required leaves.  A JSON-like tree models `self.config`; numeric
leaves carry rationals. -/

/-- A JSON-like configuration value. -/
inductive JVal where
  | num (q : ℚ)
  | flag (b : Bool)
  | str (s : String)
  | obj (fields : List (String × JVal))

/-- `key in value` / `value[key]` over an object's field list. -/
def jlookup (k : String) : List (String × JVal) → Option JVal
  | [] => none
  | (k', v) :: rest => if k' = k then some v else jlookup k rest

/-- `ConfigLoader.get` (config_loader.py lines 47-74): walk the nested
keys; any missing key or non-dict intermediate returns the default,
which every call site leaves at `None`. -/
def config_get : List String → JVal → Option JVal
  | [], v => some v
  | k :: ks, .obj fields =>
      match jlookup k fields with
      | some v' => config_get ks v'
      | none => none
  | _ :: _, _ => none

/-- Extract a numeric leaf from a `ConfigLoader.get` result (all leaves
the embedded code consumes are numeric). -/
def asNum : Option JVal → Option ℚ
  | some (.num q) => some q
  | _ => none

/-- `TechnologySpec` as actually populated by `from_config`
(powertrain.py lines 6-40): `ConfigLoader.get` returns `None` for a
missing leaf and the constructor stores it without validation, so every
field except the two divided ones is an `Option`. -/
structure TechSpecOpt where
  GT_specific_power_kW_kg : Option ℚ
  GT_efficiency : Option ℚ
  GT_BSFC_kg_kWh : Option ℚ
  EM_specific_power_kW_kg : Option ℚ
  EM_efficiency : Option ℚ
  GEN_specific_power_kW_kg : Option ℚ
  GEN_efficiency : Option ℚ
  battery_specific_energy_Wh_kg : Option ℚ
  battery_specific_power_kW_kg : Option ℚ
  battery_SOC_margin : ℚ
  battery_DOD : ℚ
  prop_efficiency : Option ℚ

def socPath : List String := ["hybrid_system", "battery", "SOC_margin_percent"]

def dodPath : List String := ["hybrid_system", "battery", "depth_of_discharge_percent"]

def gtSpecificPowerPath : List String := ["hybrid_system", "gas_turbine", "specific_power_kW_kg"]

/-- `TechnologySpec.from_config` (powertrain.py lines 25-40): only
`SOC_margin_percent` and `depth_of_discharge_percent` are used in
arithmetic (`/ 100`) during construction, so only those two raise
(`TypeError` on `None`, modelled as `none`) when missing; every other
leaf is stored as returned, `None` included. -/
def from_config (cfg : JVal) : Option TechSpecOpt :=
  match asNum (config_get socPath cfg), asNum (config_get dodPath cfg) with
  | some soc, some dod =>
      some
        { GT_specific_power_kW_kg := asNum (config_get gtSpecificPowerPath cfg)
          GT_efficiency := asNum (config_get ["hybrid_system", "gas_turbine", "efficiency"] cfg)
          GT_BSFC_kg_kWh := asNum (config_get ["hybrid_system", "gas_turbine", "BSFC_kg_kWh"] cfg)
          EM_specific_power_kW_kg :=
            asNum (config_get ["hybrid_system", "electric_motor", "specific_power_kW_kg"] cfg)
          EM_efficiency := asNum (config_get ["hybrid_system", "electric_motor", "efficiency"] cfg)
          GEN_specific_power_kW_kg :=
            asNum (config_get ["hybrid_system", "generator", "specific_power_kW_kg"] cfg)
          GEN_efficiency := asNum (config_get ["hybrid_system", "generator", "efficiency"] cfg)
          battery_specific_energy_Wh_kg :=
            asNum (config_get ["hybrid_system", "battery", "specific_energy_Wh_kg"] cfg)
          battery_specific_power_kW_kg :=
            asNum (config_get ["hybrid_system", "battery", "specific_power_kW_kg"] cfg)
          battery_SOC_margin := soc / 100
          battery_DOD := dod / 100
          prop_efficiency := asNum (config_get ["propulsion", "propeller_efficiency"] cfg) }
  | _, _ => none

/-- The first use of `GT_specific_power_kW_kg` inside the sizing loop:
`ConventionalPowertrain.size_components` divides by it (powertrain.py
line 75), raising `TypeError` when it was stored as `None`. -/
def conventionalSizeGTMassOpt (t : TechSpecOpt) (P_shaft_kW : ℚ) : Option ℚ :=
  match t.GT_specific_power_kW_kg with
  | some sp => some (P_shaft_kW / sp * 2.20462)
  | none => none

/-! Theorems. -/

lemma max_zero_sub_min (a b : ℚ) : max 0 (a - min a b) = max 0 (a - b) := by
  rcases le_total a b with h | h
  · rw [min_eq_left h, sub_self, max_eq_left le_rfl,
      max_eq_left (sub_nonpos.mpr h)]
  · rw [min_eq_right h]

/-- C4: for the serial-hybrid architecture after `size_components`, the
generator operating point is capped at the sized rating `P_GEN_kW`, the
battery supplies exactly the electrical shortfall
`max 0 (P / EM_efficiency - P_GEN_kW) * 1000` (in W), it is zero
whenever electrical demand is within the generator rating, the returned
turbine power is the generator load through the generator efficiency,
and the split is independent of the runtime `Hp` argument. -/
theorem serial_power_split_capacity_limited (tech : TechSpec) (s0 : BaseSized)
    (P_shaft_kW Hp_design P_required_kW Hp Hp' : ℚ) (pt : Powertrain)
    (hpt : pt = Powertrain.size_components (.serialHybrid tech s0) P_shaft_kW Hp_design) :
    serialGeneratorLoad tech pt.P_GEN_kW P_required_kW ≤ pt.P_GEN_kW
    ∧ (pt.get_power_split P_required_kW Hp).battery_power_W
        = max 0 (P_required_kW / tech.EM_efficiency - pt.P_GEN_kW) * 1000
    ∧ (P_required_kW / tech.EM_efficiency ≤ pt.P_GEN_kW →
        (pt.get_power_split P_required_kW Hp).battery_power_W = 0)
    ∧ (pt.get_power_split P_required_kW Hp).P_GT_kW
        = serialGeneratorLoad tech pt.P_GEN_kW P_required_kW / tech.GEN_efficiency
    ∧ pt.get_power_split P_required_kW Hp = pt.get_power_split P_required_kW Hp' := by
  subst hpt
  refine ⟨min_le_right _ _, ?_, ?_, rfl, rfl⟩
  · simp only [Powertrain.size_components, Powertrain.get_power_split, Powertrain.P_GEN_kW]
    rw [max_zero_sub_min]
  · intro h
    simp only [Powertrain.size_components, Powertrain.get_power_split, Powertrain.P_GEN_kW] at h ⊢
    rw [max_zero_sub_min, max_eq_left (sub_nonpos.mpr h), zero_mul]

def techW4 : TechSpec := ⟨1, 1, 1, 1, 1, 1, 1, 1, 1, 1, 1, 1⟩

def ptW4 : Powertrain := Powertrain.size_components (.serialHybrid techW4 {}) 100 0

/-- C4 witness: concrete serial hybrid sized at 100 kW, demand 50 kW. -/
theorem serial_power_split_capacity_limited_witness :
    serialGeneratorLoad techW4 ptW4.P_GEN_kW 50 ≤ ptW4.P_GEN_kW
    ∧ (ptW4.get_power_split 50 0).battery_power_W
        = max 0 (50 / techW4.EM_efficiency - ptW4.P_GEN_kW) * 1000
    ∧ (50 : ℚ) / techW4.EM_efficiency ≤ ptW4.P_GEN_kW
    ∧ (ptW4.get_power_split 50 0).battery_power_W = 0
    ∧ (ptW4.get_power_split 50 0).P_GT_kW
        = serialGeneratorLoad techW4 ptW4.P_GEN_kW 50 / techW4.GEN_efficiency
    ∧ ptW4.get_power_split 50 0 = ptW4.get_power_split 50 1 := by
  have h := serial_power_split_capacity_limited techW4 {} 100 0 50 0 1 ptW4 rfl
  have hle : (50 : ℚ) / techW4.EM_efficiency ≤ ptW4.P_GEN_kW := by
    simp only [ptW4, techW4, Powertrain.size_components, Powertrain.P_GEN_kW]
    norm_num
  exact ⟨h.1, h.2.1, hle, h.2.2.1 hle, h.2.2.2.1, h.2.2.2.2⟩

/-- C5: for the parallel-hybrid architecture and any `Hp ∈ [0,1]`, the
returned turbine and motor powers sum exactly to the demand, `Hp = 0`
gives zero motor power and zero battery draw, and `Hp = 1` gives zero
turbine power and zero fuel rate. -/
theorem parallel_power_split_partition (tech : TechSpec) (s : BaseSized)
    (P_required_kW Hp : ℚ) (h0 : 0 ≤ Hp) (h1 : Hp ≤ 1) :
    ((Powertrain.parallelHybrid tech s).get_power_split P_required_kW Hp).P_GT_kW
        + ((Powertrain.parallelHybrid tech s).get_power_split P_required_kW Hp).P_EM_kW
        = P_required_kW
    ∧ (Hp = 0 →
        ((Powertrain.parallelHybrid tech s).get_power_split P_required_kW Hp).P_EM_kW = 0
        ∧ ((Powertrain.parallelHybrid tech s).get_power_split P_required_kW Hp).battery_power_W = 0)
    ∧ (Hp = 1 →
        ((Powertrain.parallelHybrid tech s).get_power_split P_required_kW Hp).P_GT_kW = 0
        ∧ ((Powertrain.parallelHybrid tech s).get_power_split P_required_kW Hp).fuel_rate_kg_s = 0) := by
  refine ⟨?_, ?_, ?_⟩
  · simp only [Powertrain.get_power_split]
    ring
  · rintro rfl
    simp [Powertrain.get_power_split]
  · rintro rfl
    simp [Powertrain.get_power_split]

/-- C5 witness: concrete instances at `Hp = 0` and `Hp = 1`. -/
theorem parallel_power_split_partition_witness :
    (((Powertrain.parallelHybrid techW4 {}).get_power_split 200 0).P_GT_kW
        + ((Powertrain.parallelHybrid techW4 {}).get_power_split 200 0).P_EM_kW = 200
      ∧ ((Powertrain.parallelHybrid techW4 {}).get_power_split 200 0).P_EM_kW = 0
      ∧ ((Powertrain.parallelHybrid techW4 {}).get_power_split 200 0).battery_power_W = 0)
    ∧ (((Powertrain.parallelHybrid techW4 {}).get_power_split 200 1).P_GT_kW
        + ((Powertrain.parallelHybrid techW4 {}).get_power_split 200 1).P_EM_kW = 200
      ∧ ((Powertrain.parallelHybrid techW4 {}).get_power_split 200 1).P_GT_kW = 0
      ∧ ((Powertrain.parallelHybrid techW4 {}).get_power_split 200 1).fuel_rate_kg_s = 0) := by
  have h0 := parallel_power_split_partition techW4 {} 200 0 (by norm_num) (by norm_num)
  have h1 := parallel_power_split_partition techW4 {} 200 1 (by norm_num) (by norm_num)
  exact ⟨⟨h0.1, (h0.2.1 rfl).1, (h0.2.1 rfl).2⟩, ⟨h1.1, (h1.2.2 rfl).1, (h1.2.2 rfl).2⟩⟩

/-- C9: `get_lift_augmentation_factor` equals
`1 + (lift_aug_max - 1) * blown_span_fraction` whenever blown lift is
active and the DEP system enabled — in particular exactly `1.52` for
`lift_aug_max = 1.8`, `blown_span_fraction = 0.65` — and equals `1.0`
whenever the flag is inactive or DEP is disabled. -/
theorem lift_augmentation_factor_exact (ac : AircraftParams) (active : Bool) :
    (active = true → ac.dep_enabled = true →
      get_lift_augmentation_factor ac active
        = 1 + (ac.dep_lift_aug_max - 1) * ac.dep_blown_span_fraction)
    ∧ (active = true → ac.dep_enabled = true → ac.dep_lift_aug_max = 1.8 →
        ac.dep_blown_span_fraction = 0.65 →
        get_lift_augmentation_factor ac active = 1.52)
    ∧ (active = false ∨ ac.dep_enabled = false →
        get_lift_augmentation_factor ac active = 1.0) := by
  refine ⟨?_, ?_, ?_⟩
  · rintro rfl hdep
    simp only [get_lift_augmentation_factor, hdep]
    norm_num
  · rintro rfl hdep haug hspan
    simp only [get_lift_augmentation_factor, hdep, haug, hspan]
    norm_num
  · rintro (rfl | hdep)
    · simp [get_lift_augmentation_factor]
    · simp [get_lift_augmentation_factor, hdep]

def acW9 : AircraftParams :=
  { W_payload_lb := 4000, range_nm := 200, cruise_speed_kts := 150, cruise_alt_ft := 8000,
    dep_enabled := true, dep_lift_aug_max := 1.8, dep_blown_span_fraction := 0.65,
    dep_num_motors := 12, dep_motor_power_kW := 10.5, tech := techW4, Hp_design := 0,
    initial_TOGW_guess_lb := 15000 }

/-- C9 witness: the X-57-style numbers give exactly 1.52; with the flag
off the factor is exactly 1. -/
theorem lift_augmentation_factor_exact_witness :
    get_lift_augmentation_factor acW9 true
      = 1 + (acW9.dep_lift_aug_max - 1) * acW9.dep_blown_span_fraction
    ∧ get_lift_augmentation_factor acW9 true = 1.52
    ∧ get_lift_augmentation_factor acW9 false = 1.0 := by
  have h := lift_augmentation_factor_exact acW9 true
  have h' := lift_augmentation_factor_exact acW9 false
  exact ⟨h.1 rfl rfl, h.2.1 rfl rfl rfl rfl, h'.2.2 (Or.inl rfl)⟩

/-- C10: for a freshly constructed `DualMotorDEPPowertrain` (so before
`size_components` was ever called, `cruise_motors` still `None`),
`get_power_split` raises no error and returns all four fields zero for
every power demand and hybridization ratio. -/
theorem dual_motor_power_split_unsized_zero (tech : TechSpec) (cfg : DepConfig)
    (P_required_kW Hp : ℚ) :
    (Powertrain.mkDualMotorDEP tech cfg).get_power_split P_required_kW Hp
      = { P_GT_kW := 0, P_EM_kW := 0, fuel_rate_kg_s := 0, battery_power_W := 0 } := rfl

lemma simulate_mission_go_spec (ac : AircraftParams) (pt : Powertrain) (phys : SegmentPhysics)
    (S : ℚ) :
    ∀ segs : List MissionSegment, (∀ s ∈ segs, knownSegmentName s.name = true) →
    ∀ (W total_fuel total_battery total_time : ℚ) (acc : List SegOut),
    ∃ outs : List SegOut,
      simulate_mission_go ac pt phys S segs W total_fuel total_battery total_time acc =
        .ok { total_fuel_lb := total_fuel + (outs.map SegOut.fuel_lb).sum
              total_battery_Wh := total_battery + (outs.map SegOut.battery_Wh).sum
              total_time_sec := total_time + (outs.map SegOut.time_sec).sum
              segments := acc.reverse ++ outs }
      ∧ outs.map SegOut.name = segs.map MissionSegment.name
      ∧ ∀ i (h : i < outs.length),
          (outs.get ⟨i, h⟩).W_start_lb = W - ((outs.take i).map SegOut.fuel_lb).sum := by
  intro segs
  induction segs with
  | nil =>
      intro _ W total_fuel total_battery total_time acc
      refine ⟨[], ?_, rfl, ?_⟩
      · simp [simulate_mission_go]
      · intro i h
        exact absurd h (Nat.not_lt_zero i)
  | cons seg rest ih =>
      intro hknown W total_fuel total_battery total_time acc
      have hseg : knownSegmentName seg.name = true := hknown seg (by simp)
      have hrest : ∀ s ∈ rest, knownSegmentName s.name = true := fun s hs =>
        hknown s (List.mem_cons_of_mem _ hs)
      obtain ⟨outs', heq, hnames, hw⟩ :=
        ih hrest (W - (simulate_segment ac pt phys seg W S).2.1)
          (total_fuel + (simulate_segment ac pt phys seg W S).2.1)
          (total_battery + (simulate_segment ac pt phys seg W S).2.2)
          (total_time + (simulate_segment ac pt phys seg W S).1)
          ({ name := seg.name, time_sec := (simulate_segment ac pt phys seg W S).1,
             fuel_lb := (simulate_segment ac pt phys seg W S).2.1,
             battery_Wh := (simulate_segment ac pt phys seg W S).2.2,
             W_start_lb := W } :: acc)
      refine ⟨{ name := seg.name, time_sec := (simulate_segment ac pt phys seg W S).1,
                fuel_lb := (simulate_segment ac pt phys seg W S).2.1,
                battery_Wh := (simulate_segment ac pt phys seg W S).2.2,
                W_start_lb := W } :: outs', ?_, ?_, ?_⟩
      · simp only [simulate_mission_go, hseg, if_true]
        rw [heq]
        simp [List.sum_cons, List.reverse_cons, List.append_assoc, add_assoc]
      · simp [hnames]
      · intro i h
        cases i with
        | zero => simp
        | succ i =>
            have h' : i < outs'.length := by simpa using h
            have := hw i h'
            simp only [List.get_cons_succ, List.take_succ_cons, List.map_cons, List.sum_cons]
            rw [this]
            ring

lemma simulate_mission_go_error (ac : AircraftParams) (pt : Powertrain) (phys : SegmentPhysics)
    (S : ℚ) :
    ∀ segs : List MissionSegment, (∃ s ∈ segs, knownSegmentName s.name = false) →
    ∀ (W total_fuel total_battery total_time : ℚ) (acc : List SegOut),
    ∃ e, simulate_mission_go ac pt phys S segs W total_fuel total_battery total_time acc
        = .error e := by
  intro segs
  induction segs with
  | nil =>
      rintro ⟨s, hs, _⟩
      exact absurd hs (List.not_mem_nil s)
  | cons seg rest ih =>
      rintro ⟨s, hs, hbad⟩ W total_fuel total_battery total_time acc
      by_cases hseg : knownSegmentName seg.name = true
      · have hsrest : s ∈ rest := by
          rcases List.mem_cons.mp hs with rfl | h
          · rw [hseg] at hbad; exact absurd hbad (by simp)
          · exact h
        obtain ⟨e, he⟩ := ih ⟨s, hsrest, hbad⟩
          (W - (simulate_segment ac pt phys seg W S).2.1)
          (total_fuel + (simulate_segment ac pt phys seg W S).2.1)
          (total_battery + (simulate_segment ac pt phys seg W S).2.2)
          (total_time + (simulate_segment ac pt phys seg W S).1)
          ({ name := seg.name, time_sec := (simulate_segment ac pt phys seg W S).1,
             fuel_lb := (simulate_segment ac pt phys seg W S).2.1,
             battery_Wh := (simulate_segment ac pt phys seg W S).2.2,
             W_start_lb := W } :: acc)
        exact ⟨e, by simp only [simulate_mission_go, hseg, if_true]; exact he⟩
      · exact ⟨String.append "Unknown segment type: " seg.name,
          by simp only [simulate_mission_go, if_neg hseg]⟩

lemma create_mission_known (ac : AircraftParams) (profile : List (String × ℚ))
    (blown : Option (List (String × Bool))) :
    ∀ s ∈ create_mission ac profile blown, knownSegmentName s.name = true := by
  intro s hs
  simp only [create_mission, List.mem_cons, List.not_mem_nil, or_false] at hs
  rcases hs with rfl | rfl | rfl | rfl | rfl | rfl <;> rfl

/-- C7: `simulate_mission` on the canonical mission processes the six
segments in the fixed order takeoff, climb, cruise, descent, loiter,
landing; the running weight handed to each segment equals the initial
TOGW minus the fuel burned by the preceding segments (battery energy
never reduces weight); the returned totals are the sums of the
per-segment values; and any list containing an unknown segment name
makes `simulate_mission` raise an error. -/
theorem simulate_mission_order_weight_totals (ac : AircraftParams) (pt : Powertrain)
    (phys : SegmentPhysics) (profile : List (String × ℚ))
    (blown : Option (List (String × Bool))) (TOGW_lb S_wing_ft2 : ℚ) :
    (∃ m, simulate_mission ac pt phys (create_mission ac profile blown) TOGW_lb S_wing_ft2
          = .ok m
      ∧ m.segments.map SegOut.name
          = ["takeoff", "climb", "cruise", "descent", "loiter", "landing"]
      ∧ m.total_fuel_lb = (m.segments.map SegOut.fuel_lb).sum
      ∧ m.total_battery_Wh = (m.segments.map SegOut.battery_Wh).sum
      ∧ m.total_time_sec = (m.segments.map SegOut.time_sec).sum
      ∧ ∀ i (h : i < m.segments.length),
          (m.segments.get ⟨i, h⟩).W_start_lb
            = TOGW_lb - ((m.segments.take i).map SegOut.fuel_lb).sum)
    ∧ (∀ segs : List MissionSegment, (∃ s ∈ segs, knownSegmentName s.name = false) →
        ∃ e, simulate_mission ac pt phys segs TOGW_lb S_wing_ft2 = .error e) := by
  constructor
  · obtain ⟨outs, heq, hnames, hw⟩ :=
      simulate_mission_go_spec ac pt phys S_wing_ft2 (create_mission ac profile blown)
        (create_mission_known ac profile blown) TOGW_lb 0 0 0 []
    refine ⟨_, heq, ?_, by simp, by simp, by simp, ?_⟩
    · simpa [create_mission] using hnames
    · simpa using hw
  · intro segs hbad
    exact simulate_mission_go_error ac pt phys S_wing_ft2 segs hbad TOGW_lb 0 0 0 []

/-- A configuration with every technology leaf present except the
gas-turbine `specific_power_kW_kg`, which the conventional architecture
requires. -/
def cfgMissingGT : JVal :=
  .obj
    [("hybrid_system",
      .obj
        [("gas_turbine", .obj [("efficiency", .num 0.3), ("BSFC_kg_kWh", .num 0.35)]),
         ("electric_motor",
          .obj [("specific_power_kW_kg", .num 5), ("efficiency", .num 0.95)]),
         ("generator", .obj [("specific_power_kW_kg", .num 3), ("efficiency", .num 0.95)]),
         ("battery",
          .obj [("specific_energy_Wh_kg", .num 300), ("specific_power_kW_kg", .num 1),
                ("SOC_margin_percent", .num 20), ("depth_of_discharge_percent", .num 80)])]),
     ("propulsion", .obj [("propeller_efficiency", .num 0.85)])]

/-- C1 counterexample: the required gas-turbine specific-power leaf is
missing, yet `TechnologySpec.from_config` — the only pre-sizing
computation that touches these leaves — succeeds (no configuration
error before sizing); the failure occurs at the leaf's first use,
`size_components` inside the first sizing iteration. -/
theorem config_missing_leaf_error_inside_loop :
    asNum (config_get gtSpecificPowerPath cfgMissingGT) = none
    ∧ ∃ t, from_config cfgMissingGT = some t
        ∧ conventionalSizeGTMassOpt t 500 = none :=
  ⟨rfl, ⟨_, rfl, rfl⟩⟩

/-- C1 amended: only the two leaves divided during construction
(`SOC_margin_percent`, `depth_of_discharge_percent`) make
`from_config` fail before sizing; any other missing leaf — e.g. the
gas-turbine specific power — is stored as `None` without validation and
the failure surfaces only at its first use inside the sizing loop
(`size_components` in the first iteration). -/
theorem from_config_failure_localization :
    (∀ cfg, asNum (config_get socPath cfg) = none → from_config cfg = none)
    ∧ (∀ cfg, asNum (config_get dodPath cfg) = none → from_config cfg = none)
    ∧ (∀ cfg t, from_config cfg = some t →
        t.GT_specific_power_kW_kg = asNum (config_get gtSpecificPowerPath cfg))
    ∧ (∀ t P, t.GT_specific_power_kW_kg = none → conventionalSizeGTMassOpt t P = none) := by
  refine ⟨?_, ?_, ?_, ?_⟩
  · intro cfg h
    simp [from_config, h]
  · intro cfg h
    rcases hsoc : asNum (config_get socPath cfg) with _ | soc <;>
      simp [from_config, hsoc, h]
  · intro cfg t h
    rcases hsoc : asNum (config_get socPath cfg) with _ | soc
    · unfold from_config at h
      rw [hsoc] at h
      exact absurd h (by simp)
    · rcases hdod : asNum (config_get dodPath cfg) with _ | dod
      · unfold from_config at h
        rw [hsoc, hdod] at h
        exact absurd h (by simp)
      · unfold from_config at h
        rw [hsoc, hdod] at h
        injection h with h
        rw [← h]
  · intro t P h
    simp [conventionalSizeGTMassOpt, h]

/-- C1 witness: an empty configuration fails at construction (the SOC
leaf is missing), while `cfgMissingGT` is stored with a `None`
gas-turbine specific power and fails only at first use. -/
theorem from_config_failure_localization_witness :
    from_config (JVal.obj []) = none
    ∧ ∃ t, from_config cfgMissingGT = some t
        ∧ t.GT_specific_power_kW_kg = asNum (config_get gtSpecificPowerPath cfgMissingGT)
        ∧ conventionalSizeGTMassOpt t 500 = none := by
  have h := from_config_failure_localization
  refine ⟨h.1 _ rfl, ?_⟩
  obtain ⟨t, ht⟩ : ∃ t, from_config cfgMissingGT = some t := ⟨_, rfl⟩
  exact ⟨t, ht, h.2.2.1 _ _ ht, h.2.2.2 t 500 ((h.2.2.1 _ _ ht).trans rfl)⟩

lemma size_components_after (pt : Powertrain) (P1 Hp1 P2 Hp2 : ℚ) :
    (pt.size_components P1 Hp1).size_components P2 Hp2 = pt.size_components P2 Hp2 := by
  cases pt with
  | conventional tech s => rfl
  | parallelHybrid tech s => rfl
  | serialHybrid tech s => rfl
  | fullyElectric tech s => rfl
  | multiEngine tech n s pe => rfl
  | dualMotorDEP tech cfg s =>
      by_cases hc : cfg.cruise_architecture = "parallel_hybrid" <;>
        simp [Powertrain.size_components, hc]

lemma simulate_mission_create_ok (ac : AircraftParams) (pt : Powertrain)
    (phys : SegmentPhysics) (prof : List (String × ℚ)) (W S : ℚ) :
    ∃ m, simulate_mission ac pt phys (create_mission ac prof none) W S = .ok m :=
  ⟨_, rfl⟩

lemma sizingStep_isSome (ac : AircraftParams) (O : Oracles) (prof : List (String × ℚ))
    (pt : Powertrain) (togw : ℚ) :
    ∃ r pt', sizingStep ac O prof pt togw = some (r, pt') := by
  obtain ⟨m, hm⟩ := simulate_mission_create_ok ac
    (pt.size_components (O.constraintAnalysis togw).2 ac.Hp_design) O.phys prof togw
    (togw / (O.constraintAnalysis togw).1)
  refine ⟨sizingStepOk ac O
      (pt.size_components (O.constraintAnalysis togw).2 ac.Hp_design) togw
      (togw / (O.constraintAnalysis togw).1) m,
    pt.size_components (O.constraintAnalysis togw).2 ac.Hp_design, ?_⟩
  unfold sizingStep
  rw [hm]

lemma sizingStep_inv (ac : AircraftParams) (O : Oracles) (prof : List (String × ℚ))
    (pt : Powertrain) (togw : ℚ) (r : IterResult) (pt' : Powertrain)
    (h : sizingStep ac O prof pt togw = some (r, pt')) :
    pt' = pt.size_components (O.constraintAnalysis togw).2 ac.Hp_design
    ∧ ∃ m, simulate_mission ac pt' O.phys (create_mission ac prof none) togw
          (togw / (O.constraintAnalysis togw).1) = .ok m
        ∧ r = sizingStepOk ac O pt' togw (togw / (O.constraintAnalysis togw).1) m := by
  unfold sizingStep at h
  cases hm : simulate_mission ac
      (pt.size_components (O.constraintAnalysis togw).2 ac.Hp_design) O.phys
      (create_mission ac prof none) togw (togw / (O.constraintAnalysis togw).1) with
  | error e => rw [hm] at h; exact absurd h (by simp)
  | ok m =>
      rw [hm] at h
      injection h with h
      injection h with h1 h2
      subst h2
      exact ⟨rfl, m, hm, h1.symm⟩

lemma sizingStep_resize (ac : AircraftParams) (O : Oracles) (prof : List (String × ℚ))
    (pt : Powertrain) (P Hp togw : ℚ) :
    sizingStep ac O prof (pt.size_components P Hp) togw = sizingStep ac O prof pt togw := by
  unfold sizingStep
  rw [size_components_after]

lemma runIters_conv (ac : AircraftParams) (O : Oracles) (prof : List (String × ℚ))
    (tol : ℚ) (n : ℕ) (pt : Powertrain) (togw : ℚ) (r : IterResult) (pt' : Powertrain)
    (h : sizingStep ac O prof pt togw = some (r, pt')) (herr : r.error < tol) :
    runIters ac O prof tol (n + 1) pt togw = some (r, pt') := by
  show (match sizingStep ac O prof pt togw with
    | none => none
    | some rp =>
      if rp.1.error < tol then some rp
      else if n = 0 then some rp
      else runIters ac O prof tol n rp.2
          (0.7 * togw + 0.3 * rp.1.TOGW_new_lb)) = some (r, pt')
  rw [h]
  show (if r.error < tol then some (r, pt')
    else if n = 0 then some (r, pt')
    else runIters ac O prof tol n pt'
        (0.7 * togw + 0.3 * r.TOGW_new_lb)) = some (r, pt')
  rw [if_pos herr]

lemma runIters_cap (ac : AircraftParams) (O : Oracles) (prof : List (String × ℚ))
    (tol : ℚ) (pt : Powertrain) (togw : ℚ) (r : IterResult) (pt' : Powertrain)
    (h : sizingStep ac O prof pt togw = some (r, pt')) :
    runIters ac O prof tol 1 pt togw = some (r, pt') := by
  show (match sizingStep ac O prof pt togw with
    | none => none
    | some rp =>
      if rp.1.error < tol then some rp
      else if (0 : ℕ) = 0 then some rp
      else runIters ac O prof tol 0 rp.2
          (0.7 * togw + 0.3 * rp.1.TOGW_new_lb)) = some (r, pt')
  rw [h]
  show (if r.error < tol then some (r, pt') else some (r, pt')) = some (r, pt')
  rw [ite_self]

lemma runIters_next (ac : AircraftParams) (O : Oracles) (prof : List (String × ℚ))
    (tol : ℚ) (n : ℕ) (pt : Powertrain) (togw : ℚ) (r : IterResult) (pt' : Powertrain)
    (h : sizingStep ac O prof pt togw = some (r, pt')) (herr : ¬ r.error < tol) :
    runIters ac O prof tol (n + 2) pt togw
      = runIters ac O prof tol (n + 1) pt' (0.7 * togw + 0.3 * r.TOGW_new_lb) := by
  show (match sizingStep ac O prof pt togw with
    | none => none
    | some rp =>
      if rp.1.error < tol then some rp
      else if n + 1 = 0 then some rp
      else runIters ac O prof tol (n + 1) rp.2
          (0.7 * togw + 0.3 * rp.1.TOGW_new_lb)) = _
  rw [h]
  show (if r.error < tol then some (r, pt')
    else if n + 1 = 0 then some (r, pt')
    else runIters ac O prof tol (n + 1) pt' (0.7 * togw + 0.3 * r.TOGW_new_lb)) = _
  rw [if_neg herr, if_neg (Nat.succ_ne_zero n)]

lemma runIters_resize (ac : AircraftParams) (O : Oracles) (prof : List (String × ℚ))
    (tol : ℚ) (n : ℕ) (pt : Powertrain) (P Hp togw : ℚ) :
    runIters ac O prof tol n (pt.size_components P Hp) togw
      = runIters ac O prof tol n pt togw := by
  cases n with
  | zero => rfl
  | succ m =>
      unfold runIters
      rw [sizingStep_resize]

lemma runIters_isSome (ac : AircraftParams) (O : Oracles) (prof : List (String × ℚ))
    (tol : ℚ) :
    ∀ (n : ℕ) (pt : Powertrain) (togw : ℚ),
      ∃ rp, runIters ac O prof tol (n + 1) pt togw = some rp := by
  intro n
  induction n with
  | zero =>
      intro pt togw
      obtain ⟨r, pt', h⟩ := sizingStep_isSome ac O prof pt togw
      by_cases herr : r.error < tol
      · exact ⟨(r, pt'), runIters_conv ac O prof tol 0 pt togw r pt' h herr⟩
      · exact ⟨(r, pt'), runIters_cap ac O prof tol pt togw r pt' h⟩
  | succ m ih =>
      intro pt togw
      obtain ⟨r, pt', h⟩ := sizingStep_isSome ac O prof pt togw
      by_cases herr : r.error < tol
      · exact ⟨(r, pt'), runIters_conv ac O prof tol (m + 1) pt togw r pt' h herr⟩
      · rw [runIters_next ac O prof tol m pt togw r pt' h herr]
        exact ih pt' _

lemma runIters_final_sized (ac : AircraftParams) (O : Oracles) (prof : List (String × ℚ))
    (tol : ℚ) :
    ∀ (n : ℕ) (pt : Powertrain) (togw : ℚ) (r : IterResult) (ptF : Powertrain),
      runIters ac O prof tol n pt togw = some (r, ptF) →
      ∃ P Hp, ptF = pt.size_components P Hp := by
  intro n
  induction n with
  | zero =>
      intro pt togw r ptF h
      exact absurd h (by simp [runIters])
  | succ m ih =>
      intro pt togw r ptF h
      obtain ⟨r0, pt0, hstep⟩ := sizingStep_isSome ac O prof pt togw
      have hpt0 := (sizingStep_inv ac O prof pt togw r0 pt0 hstep).1
      by_cases herr : r0.error < tol
      · rw [runIters_conv ac O prof tol m pt togw r0 pt0 hstep herr] at h
        injection h with h
        injection h with h1 h2
        exact ⟨_, _, h2 ▸ hpt0⟩
      · cases m with
        | zero =>
            rw [runIters_cap ac O prof tol pt togw r0 pt0 hstep] at h
            injection h with h
            injection h with h1 h2
            exact ⟨_, _, h2 ▸ hpt0⟩
        | succ mm =>
            rw [runIters_next ac O prof tol mm pt togw r0 pt0 hstep herr] at h
            obtain ⟨P, Hp, hF⟩ := ih pt0 _ r ptF h
            refine ⟨P, Hp, ?_⟩
            rw [hF, hpt0, size_components_after]

lemma runIters_from_step (ac : AircraftParams) (O : Oracles) (prof : List (String × ℚ))
    (tol : ℚ) :
    ∀ (n : ℕ) (pt : Powertrain) (togw : ℚ) (rp : IterResult × Powertrain),
      runIters ac O prof tol n pt togw = some rp →
      ∃ pt0 togw0, (pt0 = pt ∨ ∃ P Hp, pt0 = pt.size_components P Hp)
        ∧ sizingStep ac O prof pt0 togw0 = some rp := by
  intro n
  induction n with
  | zero =>
      intro pt togw rp h
      exact absurd h (by simp [runIters])
  | succ m ih =>
      intro pt togw rp h
      obtain ⟨r0, pt0, hstep⟩ := sizingStep_isSome ac O prof pt togw
      have hpt0 := (sizingStep_inv ac O prof pt togw r0 pt0 hstep).1
      by_cases herr : r0.error < tol
      · rw [runIters_conv ac O prof tol m pt togw r0 pt0 hstep herr] at h
        exact ⟨pt, togw, Or.inl rfl, hstep.trans h⟩
      · cases m with
        | zero =>
            rw [runIters_cap ac O prof tol pt togw r0 pt0 hstep] at h
            exact ⟨pt, togw, Or.inl rfl, hstep.trans h⟩
        | succ mm =>
            rw [runIters_next ac O prof tol mm pt togw r0 pt0 hstep herr] at h
            obtain ⟨pt1, togw1, hprov, hstep1⟩ := ih pt0 _ rp h
            refine ⟨pt1, togw1, Or.inr ?_, hstep1⟩
            rcases hprov with rfl | ⟨P, Hp, hP⟩
            · exact ⟨_, _, hpt0⟩
            · exact ⟨P, Hp, by rw [hP, hpt0, size_components_after]⟩

lemma sizingStep_erase_guess (ac : AircraftParams) (O : Oracles) (prof : List (String × ℚ))
    (v : ℚ) (pt : Powertrain) (togw : ℚ) :
    sizingStep { ac with initial_TOGW_guess_lb := v } O prof pt togw
      = sizingStep ac O prof pt togw := rfl

lemma runIters_erase_guess (ac : AircraftParams) (O : Oracles) (prof : List (String × ℚ))
    (tol v : ℚ) :
    ∀ (n : ℕ) (pt : Powertrain) (togw : ℚ),
      runIters { ac with initial_TOGW_guess_lb := v } O prof tol n pt togw
        = runIters ac O prof tol n pt togw := by
  intro n
  induction n with
  | zero => intro pt togw; rfl
  | succ m ih =>
      intro pt togw
      obtain ⟨r, pt', h⟩ := sizingStep_isSome ac O prof pt togw
      have hg : sizingStep { ac with initial_TOGW_guess_lb := v } O prof pt togw
          = some (r, pt') := (sizingStep_erase_guess ac O prof v pt togw).trans h
      by_cases herr : r.error < tol
      · rw [runIters_conv _ O prof tol m pt togw r pt' hg herr,
          runIters_conv ac O prof tol m pt togw r pt' h herr]
      · cases m with
        | zero =>
            rw [runIters_cap _ O prof tol pt togw r pt' hg,
              runIters_cap ac O prof tol pt togw r pt' h]
        | succ mm =>
            rw [runIters_next _ O prof tol mm pt togw r pt' hg herr,
              runIters_next ac O prof tol mm pt togw r pt' h herr]
            exact ih pt' _

/-- C6: the sizing loop ignores the configured initial-guess attribute
and always starts from the literal 15000 lb; each returned iterate's
relative error is `|TOGW_new - TOGW_old| / TOGW_old`; the loop stops as
soon as the error beats the tolerance; otherwise the next guess is
`0.7·TOGW_old + 0.3·TOGW_new`; when the iteration cap is hit the last
computed iterate is still returned (no exception) with the `converged`
flag false exactly when the tolerance was not met; and with at least one
allowed iteration `size_aircraft` always returns a result. -/
theorem sizing_loop_guess_update_stop_cap (ac : AircraftParams) (O : Oracles)
    (prof : List (String × ℚ)) (tol : ℚ) :
    (∀ (v : ℚ) (n : ℕ) (pt : Powertrain),
      size_aircraft { ac with initial_TOGW_guess_lb := v } O prof n tol pt
        = size_aircraft ac O prof n tol pt)
    ∧ (∀ (n : ℕ) (pt : Powertrain),
        size_aircraft ac O prof n tol pt
          = (runIters ac O prof tol n pt 15000).map
              fun rp => (finalizeResults ac tol rp.1, rp.2))
    ∧ (∀ (pt : Powertrain) (togw : ℚ) (r : IterResult) (pt' : Powertrain),
        sizingStep ac O prof pt togw = some (r, pt') →
        r.TOGW_old_lb = togw ∧ r.error = |r.TOGW_new_lb - togw| / togw)
    ∧ (∀ (n : ℕ) (pt : Powertrain) (togw : ℚ) (r : IterResult) (pt' : Powertrain),
        sizingStep ac O prof pt togw = some (r, pt') → r.error < tol →
        runIters ac O prof tol (n + 1) pt togw = some (r, pt'))
    ∧ (∀ (n : ℕ) (pt : Powertrain) (togw : ℚ) (r : IterResult) (pt' : Powertrain),
        sizingStep ac O prof pt togw = some (r, pt') → ¬ r.error < tol →
        runIters ac O prof tol (n + 2) pt togw
          = runIters ac O prof tol (n + 1) pt' (0.7 * togw + 0.3 * r.TOGW_new_lb))
    ∧ (∀ (pt : Powertrain) (togw : ℚ) (r : IterResult) (pt' : Powertrain),
        sizingStep ac O prof pt togw = some (r, pt') →
        runIters ac O prof tol 1 pt togw = some (r, pt')
        ∧ ((finalizeResults ac tol r).converged = false ↔ ¬ r.error < tol))
    ∧ (∀ (n : ℕ) (pt : Powertrain),
        (size_aircraft ac O prof (n + 1) tol pt).isSome = true) := by
  refine ⟨?_, ?_, ?_, ?_, ?_, ?_, ?_⟩
  · intro v n pt
    unfold size_aircraft size_aircraft_from
    rw [runIters_erase_guess]
    rfl
  · intro n pt
    rfl
  · intro pt togw r pt' h
    obtain ⟨-, m, -, hr⟩ := sizingStep_inv ac O prof pt togw r pt' h
    subst hr
    exact ⟨rfl, rfl⟩
  · intro n pt togw r pt' h herr
    exact runIters_conv ac O prof tol n pt togw r pt' h herr
  · intro n pt togw r pt' h herr
    exact runIters_next ac O prof tol n pt togw r pt' h herr
  · intro pt togw r pt' h
    refine ⟨runIters_cap ac O prof tol pt togw r pt' h, ?_⟩
    simp [finalizeResults]
  · intro n pt
    obtain ⟨rp, h⟩ := runIters_isSome ac O prof tol n pt 15000
    simp [size_aircraft, size_aircraft_from, h]

/-- C8: `size_aircraft` is deterministic across repeated runs on the
same aircraft object: a second run starting from the powertrain state
mutated by the first run reproduces exactly the first run's result
(every iteration re-sizes the components before using them and the loop
restarts from the fixed initial guess). -/
theorem size_aircraft_two_runs_identical (ac : AircraftParams) (O : Oracles)
    (prof : List (String × ℚ)) (n : ℕ) (tol : ℚ) (pt : Powertrain)
    (res : SizingResult) (ptF : Powertrain)
    (h : size_aircraft ac O prof n tol pt = some (res, ptF)) :
    size_aircraft ac O prof n tol ptF = some (res, ptF) := by
  unfold size_aircraft size_aircraft_from at h ⊢
  rcases hrun : runIters ac O prof tol n pt 15000 with _ | rp
  · rw [hrun] at h
    exact absurd h (by simp)
  · rw [hrun] at h
    simp only [Option.map_some'] at h
    injection h with h
    injection h with hres hptF
    obtain ⟨P, Hp, hF⟩ :=
      runIters_final_sized ac O prof tol n pt 15000 rp.1 rp.2 hrun
    have hrun2 : runIters ac O prof tol n ptF 15000 = some rp := by
      rw [← hptF, hF, runIters_resize]
      exact hrun
    rw [hrun2]
    simp only [Option.map_some']
    rw [hres, hptF]

/-- The no-battery outputs of the else-branch (aircraft.py lines 334-343). -/
def naBattery : BatterySizing :=
  { W_battery_lb := 0, W_battery_Wh := 0, W_battery_kWh := 0, max_battery_power_kW := 0,
    max_power_segment := "N/A", c_rate_actual := 0, c_rate_max := 0,
    sizing_constraint := "N/A" }

lemma size_battery_no_battery (tech : TechSpec) (total : ℚ) (segs : List SegOut)
    (h : tech.battery_specific_energy_Wh_kg = 0 ∨ tech.battery_DOD = 0) :
    size_battery tech total segs = naBattery := by
  have hc : ¬ (0 < tech.battery_specific_energy_Wh_kg ∧ 0 < tech.battery_DOD) := by
    rintro ⟨h1, h2⟩
    rcases h with h | h
    · rw [h] at h1; exact lt_irrefl 0 h1
    · rw [h] at h2; exact lt_irrefl 0 h2
  unfold size_battery
  rw [if_neg hc]
  rfl

lemma ite_label_mem {c : Prop} [Decidable c] :
    (if c then "POWER" else "energy") = "energy"
    ∨ (if c then "POWER" else "energy") = "POWER" := by
  split
  · exact Or.inr rfl
  · exact Or.inl rfl

lemma size_battery_constraint_mem (tech : TechSpec) (total : ℚ) (segs : List SegOut)
    (h1 : 0 < tech.battery_specific_energy_Wh_kg) (h2 : 0 < tech.battery_DOD) :
    (size_battery tech total segs).sizing_constraint = "energy"
    ∨ (size_battery tech total segs).sizing_constraint = "POWER" := by
  unfold size_battery
  rw [if_pos ⟨h1, h2⟩]
  dsimp only
  exact ite_label_mem

/-- C2 (amended): with no battery system (zero specific energy or zero
depth of discharge) the battery-sizing block returns exactly zero
battery mass, energy, peak power and C-rates regardless of the mission's
battery energy, and the governing-constraint label is the string
`"N/A"`; the reported sizing results then carry exactly these zeros and
`"N/A"`. -/
theorem no_battery_outputs_zero :
    (∀ (tech : TechSpec) (total : ℚ) (segs : List SegOut),
      tech.battery_specific_energy_Wh_kg = 0 ∨ tech.battery_DOD = 0 →
      size_battery tech total segs = naBattery)
    ∧ (∀ (ac : AircraftParams) (O : Oracles) (prof : List (String × ℚ)) (n : ℕ) (tol : ℚ)
        (pt : Powertrain) (res : SizingResult) (ptF : Powertrain),
        ac.tech.battery_specific_energy_Wh_kg = 0 ∨ ac.tech.battery_DOD = 0 →
        size_aircraft ac O prof n tol pt = some (res, ptF) →
        res.W_battery_lb = 0 ∧ res.battery_fraction = 0 ∧ res.battery_peak_power_kW = 0
        ∧ res.battery_c_rate = 0 ∧ res.battery_c_rate_max = 0
        ∧ res.battery_sizing_constraint = "N/A" ∧ res.battery_peak_segment = "N/A") := by
  refine ⟨size_battery_no_battery, ?_⟩
  intro ac O prof n tol pt res ptF htech hrun
  unfold size_aircraft size_aircraft_from at hrun
  rcases hq : runIters ac O prof tol n pt 15000 with _ | rp
  · rw [hq] at hrun
    exact absurd hrun (by simp)
  · rw [hq] at hrun
    simp only [Option.map_some'] at hrun
    injection hrun with hrun
    injection hrun with hres hptF
    obtain ⟨pt0, togw0, -, hstep⟩ := runIters_from_step ac O prof tol n pt 15000 rp hq
    obtain ⟨-, m, -, hr⟩ := sizingStep_inv ac O prof pt0 togw0 rp.1 rp.2 hstep
    have hbat : rp.1.battery = naBattery := by
      rw [hr]
      exact size_battery_no_battery ac.tech m.total_battery_Wh m.segments htech
    subst hres
    refine ⟨?_, ?_, ?_, ?_, ?_, ?_, ?_⟩ <;>
      simp [finalizeResults, hbat, naBattery]

def techZero : TechSpec := ⟨0, 0, 0, 0, 0, 0, 0, 0, 0, 0, 0, 0⟩

/-- C2 counterexample: at a no-battery technology spec the battery mass
is 0 as claimed, but the reported governing constraint is the string
`"N/A"`, not `"none"`. -/
theorem no_battery_constraint_is_na_not_none :
    techZero.battery_specific_energy_Wh_kg = 0
    ∧ (size_battery techZero 5000 []).W_battery_lb = 0
    ∧ (size_battery techZero 5000 []).sizing_constraint = "N/A"
    ∧ (size_battery techZero 5000 []).sizing_constraint ≠ "none" := by
  have h := size_battery_no_battery techZero 5000 [] (Or.inl rfl)
  rw [h]
  refine ⟨rfl, rfl, rfl, ?_⟩
  intro hcontra
  exact absurd hcontra (by decide)

lemma simulate_mission_go_electric_fuel (ac : AircraftParams) (tech : TechSpec)
    (s : BaseSized) (phys : SegmentPhysics) (S : ℚ) :
    ∀ (segs : List MissionSegment) (W total_fuel total_battery total_time : ℚ)
      (acc : List SegOut) (m : MissionResult),
      simulate_mission_go ac (.fullyElectric tech s) phys S segs W total_fuel total_battery
          total_time acc = .ok m →
      m.total_fuel_lb = total_fuel := by
  intro segs
  induction segs with
  | nil =>
      intro W total_fuel total_battery total_time acc m h
      injection h with h
      subst h
      rfl
  | cons seg rest ih =>
      intro W total_fuel total_battery total_time acc m h
      unfold simulate_mission_go at h
      by_cases hk : knownSegmentName seg.name = true
      · rw [if_pos hk] at h
        have hf : (simulate_segment ac (.fullyElectric tech s) phys seg W S).2.1 = 0 := by
          simp [simulate_segment, Powertrain.get_power_split]
        have := ih _ _ _ _ _ _ h
        rw [this, hf, add_zero]
      · rw [if_neg hk] at h
        exact absurd h (by simp)

/-- C3 (amended): for the fully-electric architecture with positive
battery specific energy, specific power and depth of discharge, every
successful sizing run reports zero fuel weight and `fuel_fraction = 0`,
and its `battery_sizing_constraint` is the string `"energy"` or the
string `"POWER"` (the source capitalises the power-limited label),
never `"N/A"`. -/
theorem fully_electric_zero_fuel_constraint_label (ac : AircraftParams) (O : Oracles)
    (prof : List (String × ℚ)) (n : ℕ) (tol : ℚ) (t : TechSpec) (s : BaseSized)
    (res : SizingResult) (ptF : Powertrain)
    (hse : 0 < ac.tech.battery_specific_energy_Wh_kg)
    (hsp : 0 < ac.tech.battery_specific_power_kW_kg)
    (hdod : 0 < ac.tech.battery_DOD)
    (hrun : size_aircraft ac O prof n tol (.fullyElectric t s) = some (res, ptF)) :
    res.W_fuel_lb = 0 ∧ res.fuel_fraction = 0
    ∧ (res.battery_sizing_constraint = "energy" ∨ res.battery_sizing_constraint = "POWER")
    ∧ res.battery_sizing_constraint ≠ "N/A" := by
  unfold size_aircraft size_aircraft_from at hrun
  rcases hq : runIters ac O prof tol n (.fullyElectric t s) 15000 with _ | rp
  · rw [hq] at hrun
    exact absurd hrun (by simp)
  · rw [hq] at hrun
    simp only [Option.map_some'] at hrun
    injection hrun with hrun
    injection hrun with hres hptF
    obtain ⟨pt0, togw0, hprov, hstep⟩ := runIters_from_step ac O prof tol n _ 15000 rp hq
    obtain ⟨s0, rfl⟩ : ∃ s0, pt0 = Powertrain.fullyElectric t s0 := by
      rcases hprov with rfl | ⟨P, Hp, hP⟩
      · exact ⟨s, rfl⟩
      · exact ⟨_, hP⟩
    obtain ⟨hpt', m, hm, hr⟩ :=
      sizingStep_inv ac O prof (.fullyElectric t s0) togw0 rp.1 rp.2 hstep
    have hfuel : m.total_fuel_lb = 0 := by
      rw [hpt'] at hm
      exact simulate_mission_go_electric_fuel ac t _ O.phys _ _ _ _ _ _ _ _ hm
    have hWfuel : rp.1.W_fuel_lb = 0 := by
      rw [hr]
      simp [sizingStepOk, hfuel]
    have hbat : rp.1.battery = size_battery ac.tech m.total_battery_Wh m.segments := by
      rw [hr]
      rfl
    have hmem := size_battery_constraint_mem ac.tech m.total_battery_Wh m.segments hse hdod
    subst hres
    refine ⟨?_, ?_, ?_, ?_⟩
    · simp [finalizeResults, hWfuel]
    · simp [finalizeResults, hWfuel]
    · simp only [finalizeResults, hbat]
      exact hmem
    · rcases hmem with hlab | hlab <;>
        simp [finalizeResults, hbat, hlab]

def physW : SegmentPhysics := fun _ _ _ _ => (0, 0)

def OW6 : Oracles :=
  { constraintAnalysis := fun _ => (1, 0), W_wing := fun _ _ => 0, W_fuselage := fun _ => 0,
    phys := physW }

def acW6 : AircraftParams :=
  { W_payload_lb := 11100, range_nm := 1, cruise_speed_kts := 1, cruise_alt_ft := 1000,
    dep_enabled := false, dep_lift_aug_max := 0, dep_blown_span_fraction := 0,
    dep_num_motors := 0, dep_motor_power_kW := 0, tech := techZero, Hp_design := 0,
    initial_TOGW_guess_lb := 15000 }

def ptW6 : Powertrain := .conventional techZero {}

def rW6 : IterResult :=
  { TOGW_new_lb := 15000, TOGW_old_lb := 15000, OEW_lb := 3900, W_fuel_lb := 0,
    battery := naBattery, S_wing_ft2 := 15000, total_time_sec := 0, error := 0 }

lemma hstep6 : sizingStep acW6 OW6 [] ptW6 15000 = some (rW6, ptW6) := by
  norm_num [sizingStep, sizingStepOk, calculate_OEW, simulate_mission, simulate_mission_go,
    create_mission, defaultBlownLiftProfile, lookupD, knownSegmentName, simulate_segment,
    get_highlift_motor_power, Powertrain.get_power_split, Powertrain.size_components,
    Powertrain.get_total_propulsion_weight, size_battery, peakScan,
    acW6, OW6, physW, ptW6, techZero, rW6, naBattery]

def acW6b : AircraftParams := { acW6 with W_payload_lb := 0 }

def rW6b : IterResult :=
  { TOGW_new_lb := 3900, TOGW_old_lb := 15000, OEW_lb := 3900, W_fuel_lb := 0,
    battery := naBattery, S_wing_ft2 := 15000, total_time_sec := 0, error := 11100 / 15000 }

lemma hstep6b : sizingStep acW6b OW6 [] ptW6 15000 = some (rW6b, ptW6) := by
  norm_num [sizingStep, sizingStepOk, calculate_OEW, simulate_mission, simulate_mission_go,
    create_mission, defaultBlownLiftProfile, lookupD, knownSegmentName, simulate_segment,
    get_highlift_motor_power, Powertrain.get_power_split, Powertrain.size_components,
    Powertrain.get_total_propulsion_weight, size_battery, peakScan,
    acW6b, acW6, OW6, physW, ptW6, techZero, rW6b, naBattery]

def ptW8 : Powertrain := .conventional techZero ⟨5, 6, 7, 8, 9, 1, 2, 3⟩

def ptF8 : Powertrain := .conventional techZero ⟨0, 0, 0, 8, 9, 0, 2, 3⟩

lemma hstep8 : sizingStep acW6 OW6 [] ptW8 15000 = some (rW6, ptF8) := by
  norm_num [sizingStep, sizingStepOk, calculate_OEW, simulate_mission, simulate_mission_go,
    create_mission, defaultBlownLiftProfile, lookupD, knownSegmentName, simulate_segment,
    get_highlift_motor_power, Powertrain.get_power_split, Powertrain.size_components,
    Powertrain.get_total_propulsion_weight, size_battery, peakScan,
    acW6, OW6, physW, ptW8, ptF8, techZero, rW6, naBattery]

lemma hrunW6 : size_aircraft acW6 OW6 [] 1 1 ptW6
    = some (finalizeResults acW6 1 rW6, ptW6) := by
  unfold size_aircraft size_aircraft_from
  rw [runIters_conv acW6 OW6 [] 1 0 ptW6 15000 rW6 ptW6 hstep6 (by norm_num [rW6])]
  rfl

lemma hrun8 : size_aircraft acW6 OW6 [] 1 1 ptW8
    = some (finalizeResults acW6 1 rW6, ptF8) := by
  unfold size_aircraft size_aircraft_from
  rw [runIters_conv acW6 OW6 [] 1 0 ptW8 15000 rW6 ptF8 hstep8 (by norm_num [rW6])]
  rfl

def techE : TechSpec := ⟨1, 1, 1, 1, 1, 1, 1, 1000, 1, 1, 1, 1⟩

def acE : AircraftParams := { acW6 with tech := techE }

def OE : Oracles :=
  { constraintAnalysis := fun _ => (1, 0), W_wing := fun _ _ => 0, W_fuselage := fun _ => 0,
    phys := fun _ _ _ _ => (3600, 0) }

def ptE : Powertrain := .fullyElectric techE {}

def rE : IterResult :=
  { TOGW_new_lb := 15000, TOGW_old_lb := 15000, OEW_lb := 3900, W_fuel_lb := 0,
    battery := { W_battery_lb := 0, W_battery_Wh := 0, W_battery_kWh := 0,
                 max_battery_power_kW := 0, max_power_segment := "",
                 c_rate_actual := 0, c_rate_max := 1, sizing_constraint := "energy" },
    S_wing_ft2 := 15000, total_time_sec := 21600, error := 0 }

lemma hstepE : sizingStep acE OE [] ptE 15000 = some (rE, ptE) := by
  norm_num [sizingStep, sizingStepOk, calculate_OEW, simulate_mission, simulate_mission_go,
    create_mission, defaultBlownLiftProfile, lookupD, knownSegmentName, simulate_segment,
    get_highlift_motor_power, Powertrain.get_power_split, Powertrain.size_components,
    Powertrain.get_total_propulsion_weight, size_battery, peakScan,
    acE, acW6, OE, ptE, techE, rE]

lemma hrunE : size_aircraft acE OE [] 1 1 ptE = some (finalizeResults acE 1 rE, ptE) := by
  unfold size_aircraft size_aircraft_from
  rw [runIters_conv acE OE [] 1 0 ptE 15000 rE ptE hstepE (by norm_num [rE])]
  rfl

def techA : TechSpec := ⟨1, 1, 1, 1, 1, 1, 1, 1000, 1, 1, 0, 1⟩

def acA : AircraftParams := { acW6 with tech := techA }

def ptA : Powertrain := .fullyElectric techA {}

def rA : IterResult :=
  { TOGW_new_lb := 15000, TOGW_old_lb := 15000, OEW_lb := 3900, W_fuel_lb := 0,
    battery := naBattery, S_wing_ft2 := 15000, total_time_sec := 21600, error := 0 }

lemma hstepA : sizingStep acA OE [] ptA 15000 = some (rA, ptA) := by
  norm_num [sizingStep, sizingStepOk, calculate_OEW, simulate_mission, simulate_mission_go,
    create_mission, defaultBlownLiftProfile, lookupD, knownSegmentName, simulate_segment,
    get_highlift_motor_power, Powertrain.get_power_split, Powertrain.size_components,
    Powertrain.get_total_propulsion_weight, size_battery, peakScan,
    acA, acW6, OE, ptA, techA, rA, naBattery]

lemma hrunA : size_aircraft acA OE [] 1 1 ptA = some (finalizeResults acA 1 rA, ptA) := by
  unfold size_aircraft size_aircraft_from
  rw [runIters_conv acA OE [] 1 0 ptA 15000 rA ptA hstepA (by norm_num [rA])]
  rfl

def techB : TechSpec := ⟨1, 1, 1, 1, 1, 1, 1, 1000, 1 / 1000000, 1, 1, 1⟩

def acB : AircraftParams := { acW6 with tech := techB }

def OB : Oracles :=
  { constraintAnalysis := fun _ => (1, 0), W_wing := fun _ _ => 0, W_fuselage := fun _ => 0,
    phys := fun _ _ _ _ => (3600, 1) }

def ptB : Powertrain := .fullyElectric techB {}

def rB : IterResult :=
  { TOGW_new_lb := 2219620, TOGW_old_lb := 15000, OEW_lb := 3900, W_fuel_lb := 0,
    battery := { W_battery_lb := 2204620, W_battery_Wh := 6000, W_battery_kWh := 6,
                 max_battery_power_kW := 1, max_power_segment := "takeoff",
                 c_rate_actual := 1 / 6, c_rate_max := 1 / 1000000,
                 sizing_constraint := "POWER" },
    S_wing_ft2 := 15000, total_time_sec := 21600, error := 2204620 / 15000 }

lemma hstepB : sizingStep acB OB [] ptB 15000 = some (rB, ptB) := by
  norm_num [sizingStep, sizingStepOk, calculate_OEW, simulate_mission, simulate_mission_go,
    create_mission, defaultBlownLiftProfile, lookupD, knownSegmentName, simulate_segment,
    get_highlift_motor_power, Powertrain.get_power_split, Powertrain.size_components,
    Powertrain.get_total_propulsion_weight, size_battery, peakScan,
    acB, acW6, OB, ptB, techB, rB]

lemma hrunB : size_aircraft acB OB [] 1 1 ptB = some (finalizeResults acB 1 rB, ptB) := by
  unfold size_aircraft size_aircraft_from
  rw [runIters_cap acB OB [] 1 ptB 15000 rB ptB hstepB]
  rfl

/-- C3 counterexample: with depth of discharge zero but nonzero battery
specific energy and specific power, the reported constraint is `"N/A"`;
and in a power-limited fully-electric run the reported constraint is the
string `"POWER"`, which differs from the claimed `"power"` and
`"energy"` — so the claimed label set is wrong on both counts. -/
theorem fully_electric_constraint_label_counterexample :
    acA.tech.battery_specific_energy_Wh_kg ≠ 0
    ∧ acA.tech.battery_specific_power_kW_kg ≠ 0
    ∧ (∃ res ptF, size_aircraft acA OE [] 1 1 ptA = some (res, ptF)
        ∧ res.battery_sizing_constraint = "N/A")
    ∧ acB.tech.battery_specific_energy_Wh_kg ≠ 0
    ∧ acB.tech.battery_specific_power_kW_kg ≠ 0
    ∧ (∃ res ptF, size_aircraft acB OB [] 1 1 ptB = some (res, ptF)
        ∧ res.battery_sizing_constraint = "POWER"
        ∧ res.battery_sizing_constraint ≠ "power"
        ∧ res.battery_sizing_constraint ≠ "energy") := by
  refine ⟨by norm_num [acA, acW6, techA], by norm_num [acA, acW6, techA],
    ⟨_, _, hrunA, rfl⟩, by norm_num [acB, acW6, techB], by norm_num [acB, acW6, techB],
    ⟨_, _, hrunB, rfl, by decide, by decide⟩⟩

/-- C3 witness: a concrete fully-electric run with positive specific
energy, specific power and depth of discharge. -/
theorem fully_electric_zero_fuel_constraint_label_witness :
    0 < acE.tech.battery_specific_energy_Wh_kg
    ∧ 0 < acE.tech.battery_specific_power_kW_kg
    ∧ 0 < acE.tech.battery_DOD
    ∧ ∃ res ptF, size_aircraft acE OE [] 1 1 ptE = some (res, ptF)
        ∧ res.W_fuel_lb = 0 ∧ res.fuel_fraction = 0
        ∧ (res.battery_sizing_constraint = "energy"
            ∨ res.battery_sizing_constraint = "POWER")
        ∧ res.battery_sizing_constraint ≠ "N/A" := by
  have hse : 0 < acE.tech.battery_specific_energy_Wh_kg := by norm_num [acE, acW6, techE]
  have hsp : 0 < acE.tech.battery_specific_power_kW_kg := by norm_num [acE, acW6, techE]
  have hdod : 0 < acE.tech.battery_DOD := by norm_num [acE, acW6, techE]
  have h := fully_electric_zero_fuel_constraint_label acE OE [] 1 1 techE {}
    (finalizeResults acE 1 rE) ptE hse hsp hdod hrunE
  exact ⟨hse, hsp, hdod, _, _, hrunE, h.1, h.2.1, h.2.2.1, h.2.2.2⟩

/-- C2 witness: the battery block at a concrete no-battery spec, and a
full sizing run whose reported battery outputs are all zero with the
`"N/A"` labels. -/
theorem no_battery_outputs_zero_witness :
    size_battery techZero 5000 [] = naBattery
    ∧ acW6.tech.battery_specific_energy_Wh_kg = 0
    ∧ ∃ res ptF, size_aircraft acW6 OW6 [] 1 1 ptW6 = some (res, ptF)
        ∧ res.W_battery_lb = 0 ∧ res.battery_fraction = 0 ∧ res.battery_peak_power_kW = 0
        ∧ res.battery_c_rate = 0 ∧ res.battery_c_rate_max = 0
        ∧ res.battery_sizing_constraint = "N/A" ∧ res.battery_peak_segment = "N/A" := by
  have h := no_battery_outputs_zero
  exact ⟨h.1 techZero 5000 [] (Or.inl rfl), rfl,
    ⟨_, _, hrunW6, h.2 acW6 OW6 [] 1 1 ptW6 _ _ (Or.inl rfl) hrunW6⟩⟩

/-- C6 witness: a concrete aircraft whose first iterate converges, and a
non-converging variant exercising the under-relaxed update, the
iteration cap and the `converged = false` flag. -/
theorem sizing_loop_guess_update_stop_cap_witness :
    size_aircraft { acW6 with initial_TOGW_guess_lb := 123 } OW6 [] 3 1 ptW6
        = size_aircraft acW6 OW6 [] 3 1 ptW6
    ∧ size_aircraft acW6 OW6 [] 3 1 ptW6
        = (runIters acW6 OW6 [] 1 3 ptW6 15000).map
            (fun rp => (finalizeResults acW6 1 rp.1, rp.2))
    ∧ rW6.TOGW_old_lb = 15000 ∧ rW6.error = |rW6.TOGW_new_lb - 15000| / 15000
    ∧ runIters acW6 OW6 [] 1 3 ptW6 15000 = some (rW6, ptW6)
    ∧ runIters acW6b OW6 [] (1/2) 2 ptW6 15000
        = runIters acW6b OW6 [] (1/2) 1 ptW6 (0.7 * 15000 + 0.3 * rW6b.TOGW_new_lb)
    ∧ runIters acW6b OW6 [] (1/2) 1 ptW6 15000 = some (rW6b, ptW6)
    ∧ (finalizeResults acW6b (1/2) rW6b).converged = false
    ∧ (size_aircraft acW6 OW6 [] 3 1 ptW6).isSome = true := by
  have h := sizing_loop_guess_update_stop_cap acW6 OW6 [] 1
  have hb := sizing_loop_guess_update_stop_cap acW6b OW6 [] (1/2)
  have herr6 : rW6.error < 1 := by norm_num [rW6]
  have herr6b : ¬ rW6b.error < 1/2 := by norm_num [rW6b]
  refine ⟨h.1 123 3 ptW6, h.2.1 3 ptW6, (h.2.2.1 ptW6 15000 rW6 ptW6 hstep6).1,
    (h.2.2.1 ptW6 15000 rW6 ptW6 hstep6).2, h.2.2.2.1 2 ptW6 15000 rW6 ptW6 hstep6 herr6,
    hb.2.2.2.2.1 0 ptW6 15000 rW6b ptW6 hstep6b herr6b,
    (hb.2.2.2.2.2.1 ptW6 15000 rW6b ptW6 hstep6b).1,
    (hb.2.2.2.2.2.1 ptW6 15000 rW6b ptW6 hstep6b).2.mpr herr6b,
    h.2.2.2.2.2.2 2 ptW6⟩

/-- C8 witness: a powertrain carrying stale sized state from a previous
run; re-running `size_aircraft` from the mutated final state reproduces
the first run's result exactly. -/
theorem size_aircraft_two_runs_identical_witness :
    size_aircraft acW6 OW6 [] 1 1 ptW8 = some (finalizeResults acW6 1 rW6, ptF8)
    ∧ size_aircraft acW6 OW6 [] 1 1 ptF8 = some (finalizeResults acW6 1 rW6, ptF8) :=
  ⟨hrun8, size_aircraft_two_runs_identical acW6 OW6 [] 1 1 ptW8 _ _ hrun8⟩

/-- C7 witness: a concrete mission run plus a concrete unknown-name
failure. -/
theorem simulate_mission_order_weight_totals_witness :
    (∃ m, simulate_mission acW9 (.conventional techW4 {}) physW
          (create_mission acW9 [] none) 15000 100 = .ok m
      ∧ m.segments.map SegOut.name
          = ["takeoff", "climb", "cruise", "descent", "loiter", "landing"]
      ∧ m.total_fuel_lb = (m.segments.map SegOut.fuel_lb).sum)
    ∧ (∃ e, simulate_mission acW9 (.conventional techW4 {}) physW
          [{ name := "warp", altitude_start_ft := 0, altitude_end_ft := 0,
             Hp := 0, blown_lift_active := false }] 15000 100 = .error e) := by
  have h := simulate_mission_order_weight_totals acW9 (.conventional techW4 {}) physW [] none
    15000 100
  obtain ⟨m, hm, hn, hf, _⟩ := h.1
  exact ⟨⟨m, hm, hn, hf⟩,
    h.2 _ ⟨_, List.mem_singleton.mpr rfl, rfl⟩⟩

end Estol
